import Mathlib

/-!
Verification of the Mesh AWS Lambda proxy (api/app.py) against its
natural-language specification.

The development shallowly embeds the Python module `api/app.py`:
  * JSON values are the mutual inductive `Json`/`JsonList`/`JsonFields`
    (objects keep insertion order, as Python dicts do);
  * Python `str` operations are modelled by executable functions over
    `String.data` character lists;
  * the Secrets Manager blob is a string-to-string association list;
  * the HTTP transport underneath `urllib.request.urlopen` is an oracle
    (`TransportOutcome`), and `json.loads` is an oracle
    `parse : String → Option Json`;
  * a Python exception escaping a function is modelled by `Except.error`
    carrying the exception name.
-/

namespace MeshAws

/-! ## Character-list string primitives

Kernel-computable models of the Python `str` methods used by the source
(`startswith`, `endswith`, `in`, `rstrip("/")`, `lstrip("/")`, slicing,
`upper`). -/

def listIsPrefixOf : List Char → List Char → Bool
  | [], _ => true
  | _ :: _, [] => false
  | a :: as, b :: bs => a = b && listIsPrefixOf as bs

def listIsInfixOf (needle : List Char) : List Char → Bool
  | [] => listIsPrefixOf needle []
  | c :: cs => listIsPrefixOf needle (c :: cs) || listIsInfixOf needle cs

/-- Model of Python `s.startswith(p)`. -/
def sStartsWith (s p : String) : Bool := listIsPrefixOf p.data s.data

/-- Model of Python `s.endswith(p)`. -/
def sEndsWith (s p : String) : Bool := listIsPrefixOf p.data.reverse s.data.reverse

/-- Model of Python `sub in s` for strings (substring containment). -/
def sContainsSub (s sub : String) : Bool := listIsInfixOf sub.data s.data

/-- Model of Python `s.rstrip("/")`. -/
def rstripSlash (s : String) : String := ⟨(s.data.reverse.dropWhile (fun c => c = '/')).reverse⟩

/-- Model of Python `s.lstrip("/")`. -/
def lstripSlash (s : String) : String := ⟨s.data.dropWhile (fun c => c = '/')⟩

/-- Model of Python `s[n:]` (drop the first `n` characters). -/
def sDrop (s : String) (n : Nat) : String := ⟨s.data.drop n⟩

/-- Model of Python `len(s)`. -/
def sLen (s : String) : Nat := s.data.length

/-- Model of Python `s.upper()`. -/
def sUpper (s : String) : String := ⟨s.data.map Char.toUpper⟩

/-! ## JSON values

Python-level JSON values (the payloads, request bodies and response
bodies of app.py).  Objects are ordered field lists, mirroring Python
dict insertion order.  Numbers are integers: every numeric literal in
the source and its spec scenarios is an integer. -/

mutual
inductive Json where
  | null
  | bool (b : Bool)
  | num (n : Int)
  | str (s : String)
  | arr (xs : JsonList)
  | obj (fs : JsonFields)
deriving DecidableEq

inductive JsonList where
  | nil
  | cons (hd : Json) (tl : JsonList)
deriving DecidableEq

inductive JsonFields where
  | nil
  | cons (k : String) (v : Json) (tl : JsonFields)
deriving DecidableEq
end

def JsonList.ofList : List Json → JsonList
  | [] => .nil
  | j :: js => .cons j (JsonList.ofList js)

def JsonFields.ofList : List (String × Json) → JsonFields
  | [] => .nil
  | (k, v) :: rest => .cons k v (JsonFields.ofList rest)

/-- Build an object from a field list (insertion order preserved). -/
def Json.mkObj (l : List (String × Json)) : Json := .obj (JsonFields.ofList l)

/-- Build an array from an element list. -/
def Json.mkArr (l : List Json) : Json := .arr (JsonList.ofList l)

/-- Model of Python `k in d` for dicts. -/
def JsonFields.containsKey : JsonFields → String → Bool
  | .nil, _ => false
  | .cons k0 _ tl, k => k0 = k || tl.containsKey k

/-- First-match association lookup, the model of Python dict indexing. -/
def JsonFields.lookup : JsonFields → String → Option Json
  | .nil, _ => none
  | .cons k0 v0 tl, k => if k0 = k then some v0 else tl.lookup k

def JsonFields.append : JsonFields → JsonFields → JsonFields
  | .nil, gs => gs
  | .cons k v tl, gs => .cons k v (tl.append gs)

/-- Model of Python `d.setdefault(k, v)`: insert at the end only when the
key is absent. -/
def JsonFields.setdefault (fs : JsonFields) (k : String) (v : Json) : JsonFields :=
  if fs.containsKey k then fs else fs.append (.cons k v .nil)

/-- Model of Python `d[k] = v`: replace in place when the key is present
(Python dicts keep the original insertion position), append otherwise. -/
def JsonFields.dset : JsonFields → String → Json → JsonFields
  | .nil, k, v => .cons k v .nil
  | .cons k0 v0 tl, k, v => if k0 = k then .cons k0 v tl else .cons k0 v0 (tl.dset k v)

/-- Model of the dict comprehension `{k: v for k, v in d.items() if k not in ks}`. -/
def JsonFields.removeKeys : JsonFields → List String → JsonFields
  | .nil, _ => .nil
  | .cons k v tl, ks => if ks.contains k then tl.removeKeys ks else .cons k v (tl.removeKeys ks)

/-- Model of Python `s in l` for a string and a list value. -/
def JsonList.containsStr : JsonList → String → Bool
  | .nil, _ => false
  | .cons j tl, s => (match j with | .str t => t == s | _ => false) || tl.containsStr s

/-- Python truthiness of a JSON value (`bool(v)`). -/
def jsonTruthy : Json → Bool
  | .null => false
  | .bool b => b
  | .num n => n != 0
  | .str s => s != ""
  | .arr .nil => false
  | .arr (.cons _ _) => true
  | .obj .nil => false
  | .obj (.cons _ _ _) => true

/-- Model of Python `d.get(k)`: the stored value, or `None` (`Json.null`)
when the key is absent.  A stored JSON `null` and an absent key are
indistinguishable, exactly as with `dict.get`. -/
def pyGet (fs : JsonFields) (k : String) : Json := (fs.lookup k).getD .null

/-- Model of Python `a or b` on JSON values. -/
def pyOrJ (a b : Json) : Json := if jsonTruthy a then a else b

mutual
/-- Whether `needle` occurs as a substring of any string literal (key or
string value) anywhere inside a JSON value.  A JSON-serialised form of
the value contains `needle` exactly when this holds, for needles made of
plain identifier characters. -/
def Json.mentions (needle : String) : Json → Bool
  | .str s => sContainsSub s needle
  | .arr xs => JsonList.mentions needle xs
  | .obj fs => JsonFields.mentions needle fs
  | _ => false

def JsonList.mentions (needle : String) : JsonList → Bool
  | .nil => false
  | .cons j tl => Json.mentions needle j || JsonList.mentions needle tl

def JsonFields.mentions (needle : String) : JsonFields → Bool
  | .nil => false
  | .cons k v tl => sContainsSub k needle || Json.mentions needle v || JsonFields.mentions needle tl
end

/-! ## Secrets -/

/-- The parsed Secrets Manager JSON blob.  The source reads only string
values from it (`rstrip`, `startswith` are applied to them), so values
are modelled as strings; `bool(v)` on a string value is `v != ""`. -/
def Secret := List (String × String)

/-- Model of `secret.get(k)`. -/
def sGet : Secret → String → Option String
  | [], _ => none
  | (k0, v0) :: rest, k => if k0 = k then some v0 else sGet rest k

/-- Python truthiness of `secret.get(k)` (None or the empty string are falsy). -/
def optTruthy : Option String → Bool
  | some s => s != ""
  | none => false

/-- Model of a chain `a or b or ... or dflt` over optional strings. -/
def firstTruthyD : List (Option String) → String → String
  | [], dflt => dflt
  | o :: rest, dflt => if optTruthy o then o.getD "" else firstTruthyD rest dflt

/-- Model of `a or b` keeping the optional result (used where the chain
has no final literal, as in `secret.get("MESH_CLIENT_SECRET") or
secret.get("MESH_API_KEY")`). -/
def pyOrOpt (a b : Option String) : Option String := if optTruthy a then a else b

/-! ## URL parsing and joining

Models of the fragments of `urllib.parse.urlparse` and
`urllib.parse.urljoin` that `mesh_config` exercises. -/

def takeUntilChar (l : List Char) (c : Char) : List Char := l.takeWhile (fun x => !(x == c))

def isSchemeChar (c : Char) : Bool := c.isAlpha || c.isDigit || c = '+' || c = '-' || c = '.'

/-- Split a leading `scheme:` off a URL string, following `urlsplit`:
the scheme is a nonempty run of letters, digits, `+`, `-`, `.` starting
with a letter and ending at the first `:`, which must come before any
`/`. -/
def splitScheme (s : String) : Option (String × String) :=
  let pre := s.data.takeWhile (fun c => !(c == ':') && !(c == '/'))
  match s.data.drop pre.length with
  | ':' :: rest =>
    match pre with
    | [] => none
    | c :: _ => if c.isAlpha && pre.all isSchemeChar then some (⟨pre⟩, ⟨rest⟩) else none
  | _ => none

/-- The path left after the authority part: everything from the first
`/` on, or empty when there is no `/`. -/
def pathAfterAuthority (l : List Char) : String := ⟨l.dropWhile (fun c => !(c == '/'))⟩

/-- Model of `urllib.parse.urlparse(s).path` for the URL shapes reaching
it here: fragment is split at the first `#`, query at the first `?`;
a leading `scheme://authority` or `//authority` is removed; a bare
`scheme:rest` keeps `rest` as the path; otherwise the whole remainder is
the path.  (`;`-parameters are not modelled.) -/
def urlparsePath (s : String) : String :=
  let core : List Char := takeUntilChar (takeUntilChar s.data '#') '?'
  match splitScheme ⟨core⟩ with
  | some (_, rest) =>
    if sStartsWith rest "//" then pathAfterAuthority (rest.data.drop 2) else rest
  | none =>
    match core with
    | '/' :: '/' :: tail => pathAfterAuthority tail
    | _ => ⟨core⟩

/-- Lines 72–76 of app.py: the rstripped path of the parsed base URL. -/
def basePathOf (base : String) : String := rstripSlash (urlparsePath base)

/-- Lines 74–76 of app.py: does the base URL path already carry an API
version segment? -/
def hasApiVersion (base : String) : Bool :=
  let base_path := basePathOf base
  (sEndsWith base_path "/v1" || sEndsWith base_path "/v2" ||
   sEndsWith base_path "/api/v1" || sEndsWith base_path "/api/v2") ||
  sContainsSub base_path "/api/"

/-- The prefix of `s` up to and including its last `/` (all of `s` when
`s` ends with `/`, empty when `s` has no `/`). -/
def dirOf (s : String) : String := ⟨(s.data.reverse.dropWhile (fun c => !(c == '/'))).reverse⟩

/-- Model of `urllib.parse.urljoin(base, ref)` restricted to the calls
`resolve_path` makes: `base` always ends in `/`, and `ref` never starts
with `/` (it has been `lstrip`ped).  An `http(s)://` ref is returned
verbatim; an empty ref yields the base; any other ref is appended to the
directory of the base.  Refs with a different `scheme:` prefix, with
`.`/`..` segments, or bases carrying a query or fragment are outside the
modelled fragment (theorems quantifying over such inputs carry
`baseOk`/`relRefOk` side conditions keeping them inside it). -/
def urljoinPy (base ref : String) : String :=
  if sStartsWith ref "http://" || sStartsWith ref "https://" then ref
  else if ref = "" then base
  else dirOf base ++ ref

/-- Split on `/` (model of `s.split("/")`). -/
def splitSlashAux : List Char → List Char → List String
  | [], acc => [⟨acc.reverse⟩]
  | c :: cs, acc => if c = '/' then ⟨acc.reverse⟩ :: splitSlashAux cs [] else splitSlashAux cs (c :: acc)

def splitSlash (s : String) : List String := splitSlashAux s.data []

/-- Side condition keeping a base URL inside the modelled `urljoin`
fragment: an `http(s)` or scheme-less URL with no query, fragment or
dot segments. -/
def baseOk (b : String) : Bool :=
  (sStartsWith b "http://" || sStartsWith b "https://" ||
    !((b.data.takeWhile (fun c => !(c == '/'))).contains ':')) &&
  !(b.data.contains '?') && !(b.data.contains '#') &&
  !((splitSlash b).contains ".") && !((splitSlash b).contains "..")

/-- Side condition keeping a relative reference inside the modelled
`urljoin` fragment: no `:` in its first segment (no scheme) and no
dot segments. -/
def relRefOk (p : String) : Bool :=
  !((p.data.takeWhile (fun c => !(c == '/'))).contains ':') &&
  !((splitSlash p).contains ".") && !((splitSlash p).contains "..")

/-! ## mesh_config (lines 50–103 of app.py) -/

/-- The resolved configuration record returned by `mesh_config`. -/
structure MeshConfig where
  base_url : String
  client_secret : String
  client_id : Option String
  customer_id : Option String
  default_mfa : String
  default_user_id : String
  coinbase_integration_id : Option String
  ethereum_network_id : Option String
  pay_to_address : Option String
  link_token_url : String
  transfer_url : String
  portfolio_url : String
  raw_secret : List (String × Bool)
deriving DecidableEq

/-- Line 57: `(secret.get("MESH_BASE_URL") or secret.get("MESH_API_BASE_URL") or "").rstrip("/")`. -/
def cfgBase (secret : Secret) : String :=
  rstripSlash (firstTruthyD [sGet secret "MESH_BASE_URL", sGet secret "MESH_API_BASE_URL"] "")

/-- Line 59: `secret.get("MESH_CLIENT_SECRET") or secret.get("MESH_API_KEY")`. -/
def cfgClientSecret (secret : Secret) : Option String :=
  pyOrOpt (sGet secret "MESH_CLIENT_SECRET") (sGet secret "MESH_API_KEY")

/-- Lines 79–87: `resolve_path(secret_key, default_path)`.  The
prefix argument `dp` is `""` or `"api/v1/"` exactly as computed on
line 77. -/
def resolvePath (secret : Secret) (base dp : String)
    (secret_key default_path : String) : String :=
  let override := sGet secret secret_key
  if optTruthy override then
    let o := override.getD ""
    if sStartsWith o "http://" || sStartsWith o "https://" then o
    else urljoinPy (rstripSlash base ++ "/") (lstripSlash o)
  else urljoinPy (rstripSlash base ++ "/") (dp ++ lstripSlash default_path)

/-- The configuration record built on lines 89–103 once the two checks
on lines 67–70 have passed. -/
def meshConfigOk (secret : Secret) : MeshConfig :=
  let base := cfgBase secret
  let dp := if hasApiVersion base then "" else "api/v1/"
  { base_url := base
    client_secret := (cfgClientSecret secret).getD ""
    client_id := sGet secret "MESH_CLIENT_ID"
    customer_id := sGet secret "MESH_CUSTOMER_ID"
    default_mfa := firstTruthyD [sGet secret "MESH_DEFAULT_MFA_CODE"] "123456"
    default_user_id := firstTruthyD [sGet secret "MESH_DEFAULT_USER_ID"] "demo-user-1"
    coinbase_integration_id := sGet secret "COINBASE_INTEGRATION_ID"
    ethereum_network_id := sGet secret "ETHEREUM_NETWORK_ID"
    pay_to_address := sGet secret "PAY_TO_ADDRESS"
    link_token_url := resolvePath secret base dp "MESH_LINK_TOKEN_PATH" "linktoken"
    transfer_url := resolvePath secret base dp "MESH_TRANSFER_PATH" "transfer/create"
    portfolio_url := resolvePath secret base dp "MESH_PORTFOLIO_PATH" "holdings/get"
    raw_secret := secret.map (fun kv => (kv.1, kv.2 != "")) }

/-- Lines 50–103: `mesh_config()`.  A raised `MeshConfigError` is the
`Except.error` case, carrying the exception message. -/
def meshConfig (secret : Secret) : Except String MeshConfig :=
  if cfgBase secret = "" then .error "MESH_BASE_URL missing in secret"
  else if optTruthy (cfgClientSecret secret) = false then
    .error "MESH_API_KEY (client secret) missing in secret"
  else .ok (meshConfigOk secret)

/-! ## mesh_request (lines 106–144 of app.py)

The HTTP transport under `urllib.request.urlopen` is an oracle: a
successful exchange carries the status code and raw body text, an
`HTTPError` carries code, body text and reason, a `URLError` carries the
reason.  `json.loads` is an oracle `parse`; `parse s = none` models a
`JSONDecodeError` on `s`. -/

inductive TransportOutcome where
  | success (code : Nat) (raw : String)
  | httpError (code : Nat) (raw : String) (reason : String)
  | urlError (reason : String)

/-- The model of `json.loads`. -/
def Parse := String → Option Json

/-- The request assembled on lines 111–128 (method, full URL, headers,
optional JSON body), recorded so theorems can talk about what is sent
upstream.  The JSON body is kept structured; its `json.dumps`
serialisation is not modelled. -/
structure UpstreamCall where
  method : String
  url : String
  headers : List (String × String)
  payload : Option Json
deriving DecidableEq

def urlencodePairs : List (String × String) → String
  | [] => ""
  | [(k, v)] => k ++ "=" ++ v
  | (k, v) :: rest => k ++ "=" ++ v ++ "&" ++ urlencodePairs rest

def headersDset : List (String × String) → String → String → List (String × String)
  | [], k, v => [(k, v)]
  | (k0, v0) :: tl, k, v => if k0 = k then (k0, v) :: tl else (k0, v0) :: headersDset tl k v

/-- Model of `headers.update(extra)` on an ordered string dict. -/
def headersUpdate (d : List (String × String)) : List (String × String) → List (String × String)
  | [] => d
  | (k, v) :: rest => headersUpdate (headersDset d k v) rest

/-- Lines 111–128: build the outgoing request. -/
def meshBuildRequest (method url : String) (cfg : MeshConfig) (payload : Option Json)
    (query : Option (List (String × String))) (extra_headers : Option (List (String × String))) :
    UpstreamCall :=
  let full_url := match query with
    | some q => if q ≠ [] then url ++ "?" ++ urlencodePairs q else url
    | none => url
  let headers := [("Accept", "application/json")]
  let headers := if optTruthy cfg.client_id then headers ++ [("X-Client-Id", cfg.client_id.getD "")] else headers
  let headers := headers ++ [("X-Client-Secret", cfg.client_secret)]
  let headers := match payload with
    | some _ => headers ++ [("Content-Type", "application/json")]
    | none => headers
  let headers := match extra_headers with
    | some ex => if ex ≠ [] then headersUpdate headers ex else headers
    | none => headers
  { method := sUpper method, url := full_url, headers := headers, payload := payload }

/-- Model of Python `needle in body` for an arbitrary JSON `body` (dict
key test, list membership, substring test; a `TypeError` on the other
shapes). -/
def pyInJson (needle : String) : Json → Except String Bool
  | .obj fs => .ok (fs.containsKey needle)
  | .arr xs => .ok (xs.containsStr needle)
  | .str s => .ok (sContainsSub s needle)
  | _ => .error "TypeError"

/-- Lines 130–144: the try/except around the transport call.  Returns
the `(status, body)` pair, or `Except.error` when the Python code would
raise: a `json.JSONDecodeError` from line 133 (2xx body that is not
valid JSON), or a `TypeError` from lines 140–141 (error body that parsed
to a non-dict). -/
def meshRequest (parse : Parse) (outcome : TransportOutcome) : Except String (Nat × Json) :=
  match outcome with
  | .success code raw =>
    if raw = "" then .ok (code, Json.obj .nil)
    else
      match parse raw with
      | some j => .ok (code, j)
      | none => .error "json.JSONDecodeError"
  | .httpError code raw reason =>
    let parsed : Option Json := if raw = "" then some (Json.obj .nil) else parse raw
    match parsed with
    | some body =>
      match pyInJson "status" body with
      | .error e => .error e
      | .ok present =>
        if present then .ok (code, body)
        else
          match body with
          | .obj fs => .ok (code, .obj (fs.dset "status" (Json.num code)))
          | _ => .error "TypeError"
    | none =>
      let msg := if raw = "" then reason else raw
      .ok (code, .obj (.cons "error" (.str msg) (.cons "status" (Json.num code) .nil)))
  | .urlError reason => .ok (599, .obj (.cons "error" (.str reason) .nil))

/-! ## Request envelope, json_body and _resp (lines 25–47, 148–156) -/

/-- The `body` entry of the invocation event: either a raw string or an
already-parsed JSON value, as `json_body` distinguishes. -/
inductive BodyVal where
  | str (s : String)
  | json (j : Json)
deriving DecidableEq

/-- The parts of the invocation event the handler reads:
`requestContext.http.method`, `requestContext.http.stage`, `rawPath`,
`path`, `body`, `queryStringParameters`.  A missing entry is `none`. -/
structure LambdaEvent where
  rcMethod : Option String
  rcStage : Option String
  rawPath : Option String
  path : Option String
  body : Option BodyVal
  queryStringParameters : Option (List (String × String))

/-- Python truthiness of the `body` entry. -/
def bodyValFalsy : BodyVal → Bool
  | .str s => s == ""
  | .json j => !(jsonTruthy j)

/-- Lines 25–34: `json_body(event)`.  A string body that fails to parse
yields the empty dict. -/
def jsonBody (parse : Parse) (e : LambdaEvent) : Json :=
  match e.body with
  | none => Json.obj .nil
  | some bv =>
    if bodyValFalsy bv then Json.obj .nil
    else
      match bv with
      | .str s => (match parse s with | some j => j | none => Json.obj .nil)
      | .json j => j

/-- The constant header dict of `_resp` (lines 39–45). -/
def corsHeaders : List (String × String) :=
  [("Content-Type", "application/json"),
   ("Access-Control-Allow-Origin", "*"),
   ("Access-Control-Allow-Headers", "Content-Type,Authorization"),
   ("Access-Control-Allow-Methods", "GET,POST,OPTIONS")]

/-- The response envelope built by `_resp` (lines 36–47); the body is
kept structured rather than `json.dumps`-serialised. -/
structure HttpResponse where
  statusCode : Nat
  headers : List (String × String)
  body : Json
deriving DecidableEq

def respond (status : Nat) (body : Json) : HttpResponse :=
  { statusCode := status, headers := corsHeaders, body := body }

/-- Using a truthy JSON value as a Python dict: field list of an object,
an `AttributeError`/`TypeError` otherwise (`msg` names the exception the
use site would raise).  Python would accept a few non-dict shapes at the
`dict(...)` call sites (a list of pairs); those are modelled as errors
too, and no theorem exercises them. -/
def asDictE (msg : String) : Json → Except String JsonFields
  | .obj fs => .ok fs
  | _ => .error msg

def optStrJson : Option String → Json
  | some s => .str s
  | none => .null

/-! ## Payload builders (lines 179–196, 216–224, 236–281) -/

/-- Lines 179–196: the link-token payload (also used by the `connect`
variant). -/
def buildLinkTokenPayload (cfg : MeshConfig) (body : JsonFields) : JsonFields :=
  let payload := body
  let user_id := pyOrJ (pyGet payload "userId")
    (pyOrJ (pyGet payload "userGuid")
      (pyOrJ (pyGet payload "customerId") (Json.str cfg.default_user_id)))
  let payload := if jsonTruthy user_id then payload.setdefault "userId" user_id else payload
  let payload :=
    if optTruthy cfg.client_id ∧ !(payload.containsKey "clientId") then
      payload.dset "clientId" (.str (cfg.client_id.getD "")) else payload
  let payload :=
    if optTruthy cfg.customer_id ∧ !(payload.containsKey "customerId") ∧ !(payload.containsKey "customerGuid") then
      payload.dset "customerId" (.str (cfg.customer_id.getD "")) else payload
  let payload :=
    if optTruthy cfg.coinbase_integration_id ∧ !(payload.containsKey "integrationId") then
      payload.dset "integrationId" (.str (cfg.coinbase_integration_id.getD "")) else payload
  let payload := payload.setdefault "restrictMultipleAccounts" (.bool true)
  payload.setdefault "products" (Json.mkArr [.str "transactions", .str "portfolio", .str "transfer"])

/-- Lines 216–224: the legacy direct-transfer payload (pay route with a
truthy `accessToken`). -/
def buildLegacyTransferPayload (cfg : MeshConfig) (body : JsonFields) : JsonFields :=
  let tp := body
  let tp := tp.setdefault "memo" (.str "Shoes")
  let tp := tp.setdefault "asset" (pyOrJ (pyGet body "asset") (.str "USDC"))
  let tp := tp.setdefault "network" (pyOrJ (pyGet body "network") (.str "ethereum"))
  let tp := tp.setdefault "twoFactorCode" (pyOrJ (pyGet body "twoFactorCode") (.str cfg.default_mfa))
  let tp :=
    if optTruthy cfg.client_id ∧ !(tp.containsKey "clientId") then
      tp.dset "clientId" (.str (cfg.client_id.getD "")) else tp
  let tp :=
    if optTruthy cfg.customer_id ∧ !(tp.containsKey "customerId") ∧ !(tp.containsKey "customerGuid") then
      tp.dset "customerId" (.str (cfg.customer_id.getD "")) else tp
  tp

/-- The key set stripped from the top-level pay payload (line 236). -/
def payStripKeys : List String :=
  ["amount", "amountInFiat", "network", "toAddress", "destinationAddress", "asset", "symbol"]

/-- Lines 236–252: the top-level pay payload (caller body minus the
stripped keys, plus identity defaults, `restrictMultipleAccounts` and
`products`). -/
def buildPayTopPayload (cfg : MeshConfig) (body : JsonFields) : JsonFields :=
  let payload := body.removeKeys payStripKeys
  let user_id := pyOrJ (pyGet payload "userId")
    (pyOrJ (pyGet body "userId") (Json.str cfg.default_user_id))
  let payload := if jsonTruthy user_id then payload.setdefault "userId" user_id else payload
  let payload :=
    if optTruthy cfg.client_id ∧ !(payload.containsKey "clientId") then
      payload.dset "clientId" (.str (cfg.client_id.getD "")) else payload
  let payload :=
    if optTruthy cfg.customer_id ∧ !(payload.containsKey "customerId") ∧ !(payload.containsKey "customerGuid") then
      payload.dset "customerId" (.str (cfg.customer_id.getD "")) else payload
  let payload :=
    if optTruthy cfg.coinbase_integration_id ∧ !(payload.containsKey "integrationId") then
      payload.dset "integrationId" (.str (cfg.coinbase_integration_id.getD "")) else payload
  let payload := payload.setdefault "restrictMultipleAccounts" (.bool true)
  payload.setdefault "products" (Json.mkArr [.str "transfer"])

/-- Lines 256–266: the `to_addresses` value — the caller's, or one
synthesized from caller/config address, network and symbol when both
address and network resolve. -/
def payToAddresses (cfg : MeshConfig) (body ts0 : JsonFields) : Json :=
  let to_addresses0 := pyGet ts0 "toAddresses"
  if !(jsonTruthy to_addresses0) then
    let address := pyOrJ (pyGet body "toAddress")
      (pyOrJ (pyGet body "destinationAddress") (optStrJson cfg.pay_to_address))
    let network_id := pyOrJ (pyGet body "networkId")
      (pyOrJ (pyGet body "network") (optStrJson cfg.ethereum_network_id))
    let symbol := pyOrJ (pyGet body "symbol") (pyOrJ (pyGet body "asset") (.str "USDC"))
    if jsonTruthy address ∧ jsonTruthy network_id then
      Json.mkArr [Json.mkObj [("networkId", network_id), ("symbol", symbol), ("address", address)]]
    else to_addresses0
  else to_addresses0

/-- Lines 267–268: store `to_addresses` under `toAddresses` when truthy. -/
def tsAfterToAddresses (cfg : MeshConfig) (body ts0 : JsonFields) : JsonFields :=
  if jsonTruthy (payToAddresses cfg body ts0) then
    ts0.dset "toAddresses" (payToAddresses cfg body ts0)
  else ts0

/-- Lines 270–277: the amount placed into `transferOptions` when the
caller supplied none there: top-level `amountInFiat` or `amount`,
defaulting to 50 when the chain ends in `None`. -/
def payAmount (body : JsonFields) : Json :=
  let amount := pyOrJ (pyGet body "amountInFiat") (pyGet body "amount")
  if amount = Json.null then Json.num 50 else amount

/-- Lines 270–277: set `amountInFiat` when absent. -/
def tsAfterAmount (body ts1 : JsonFields) : JsonFields :=
  if !(ts1.containsKey "amountInFiat") then ts1.dset "amountInFiat" (payAmount body) else ts1

/-- Lines 254–280: the full `transferOptions` object built from the
caller's `transferOptions` fields `ts0`. -/
def buildTransferOptions (cfg : MeshConfig) (body ts0 : JsonFields) : JsonFields :=
  ((tsAfterAmount body (tsAfterToAddresses cfg body ts0)).setdefault
      "isInclusiveFeeEnabled" (.bool false)).setdefault "generatePayLink" (.bool false)

/-- Lines 236–281: the pay-flavoured link-token payload with its nested
`transferOptions` object.  The error case is the `TypeError` Python
would raise at `dict(body.get("transferOptions") or {})` on a truthy
non-dict value. -/
def buildPayPayload (cfg : MeshConfig) (body : JsonFields) : Except String JsonFields :=
  match pyOrJ (pyGet body "transferOptions") (Json.obj .nil) with
  | .obj ts0 =>
    .ok ((buildPayTopPayload cfg body).dset "transferOptions"
      (.obj (buildTransferOptions cfg body ts0)))
  | _ => .error "TypeError"

/-! ## Router/dispatcher (lines 148–333) -/

def charListLe : List Char → List Char → Bool
  | [], _ => true
  | _ :: _, [] => false
  | a :: as, b :: bs => if a = b then charListLe as bs else Nat.blt a.toNat b.toNat

/-- Code-point lexicographic order on strings, the order of Python
`sorted` on `str`. -/
def strLeB (a b : String) : Bool := charListLe a.data b.data

def insertSorted (x : String) : List String → List String
  | [] => [x]
  | y :: ys => if strLeB x y then x :: y :: ys else y :: insertSorted x ys

/-- Model of Python `sorted` on a list of strings. -/
def sortStrings : List String → List String
  | [] => []
  | x :: xs => insertSorted x (sortStrings xs)

def secretKeys (s : Secret) : List String := s.map Prod.fst

/-- Line 172: `sorted(get_secret().keys())`, as the JSON array the
link-token config-error response embeds. -/
def secretKeysJson (s : Secret) : Json := Json.mkArr ((sortStrings (secretKeys s)).map Json.str)

/-- Model of `qs.get(k)` on the query-string dict, as a Python value. -/
def qsGetJ (qs : List (String × String)) (k : String) : Json := optStrJson (sGet qs k)

/-- Lines 168–205: the link-token / link-token-connect route body. -/
def linkTokenRoute (secret : Secret) (parse : Parse) (outcome : TransportOutcome)
    (event : LambdaEvent) : Option UpstreamCall × Except String HttpResponse :=
  match meshConfig secret with
  | .error err =>
    (none, .ok (respond 500 (Json.mkObj
      [("error", .str "Mesh API not configured"), ("detail", .str err),
       ("secretKeys", secretKeysJson secret)])))
  | .ok cfg =>
    match asDictE "TypeError" (pyOrJ (jsonBody parse event) (Json.obj .nil)) with
    | .error e => (none, .error e)
    | .ok body =>
      let payload := buildLinkTokenPayload cfg body
      let call := meshBuildRequest "POST" cfg.link_token_url cfg (some (.obj payload)) none none
      (some call,
        match meshRequest parse outcome with
        | .error e => .error e
        | .ok (status, mesh_body) =>
          if 400 ≤ status then
            .ok (respond status (Json.mkObj
              [("error", .str "Mesh link token request failed"),
               ("meshResponse", mesh_body), ("payload", .obj payload)]))
          else .ok (respond 200 mesh_body))

/-- Lines 207–290: the pay route body (legacy direct transfer when the
caller body has a truthy `accessToken`, pay-flavoured link token
otherwise). -/
def payRoute (secret : Secret) (parse : Parse) (outcome : TransportOutcome)
    (event : LambdaEvent) : Option UpstreamCall × Except String HttpResponse :=
  match meshConfig secret with
  | .error err =>
    (none, .ok (respond 500 (Json.mkObj
      [("error", .str "Mesh API not configured"), ("detail", .str err)])))
  | .ok cfg =>
    match asDictE "AttributeError" (pyOrJ (jsonBody parse event) (Json.obj .nil)) with
    | .error e => (none, .error e)
    | .ok body =>
      if jsonTruthy (pyGet body "accessToken") then
        let transfer_payload := buildLegacyTransferPayload cfg body
        let call := meshBuildRequest "POST" cfg.transfer_url cfg (some (.obj transfer_payload)) none none
        (some call,
          match meshRequest parse outcome with
          | .error e => .error e
          | .ok (status, transfer_body) =>
            if 400 ≤ status then
              let public_payload := transfer_payload.removeKeys ["accessToken"]
              .ok (respond status (Json.mkObj
                [("error", .str "Mesh transfer failed"),
                 ("meshResponse", transfer_body), ("payload", .obj public_payload)]))
            else .ok (respond 200 transfer_body))
      else
        match buildPayPayload cfg body with
        | .error e => (none, .error e)
        | .ok payload =>
          let call := meshBuildRequest "POST" cfg.link_token_url cfg (some (.obj payload)) none none
          (some call,
            match meshRequest parse outcome with
            | .error e => .error e
            | .ok (status, mesh_body) =>
              if 400 ≤ status then
                .ok (respond status (Json.mkObj
                  [("error", .str "Mesh pay link token request failed"),
                   ("meshResponse", mesh_body), ("payload", .obj payload)]))
              else .ok (respond 200 mesh_body))

/-- Lines 292–331: the portfolio route body. -/
def portfolioRoute (secret : Secret) (parse : Parse) (outcome : TransportOutcome)
    (event : LambdaEvent) (method : String) : Option UpstreamCall × Except String HttpResponse :=
  match meshConfig secret with
  | .error err =>
    (none, .ok (respond 500 (Json.mkObj
      [("error", .str "Mesh API not configured"), ("detail", .str err)])))
  | .ok cfg =>
    if method = "GET" then
      let qs := event.queryStringParameters.getD []
      let auth_token := pyOrJ (qsGetJ qs "authToken")
        (pyOrJ (qsGetJ qs "accessToken") (qsGetJ qs "access_token"))
      let account_id := pyOrJ (qsGetJ qs "accountId") (qsGetJ qs "account_id")
      if !(jsonTruthy auth_token) then
        (none, .ok (respond 400 (Json.mkObj [("error", .str "authToken is required")])))
      else
        let payload := JsonFields.cons "authToken" auth_token
          (.cons "includeMarketValue" (.bool true) .nil)
        let payload := if jsonTruthy account_id then payload.dset "accountId" account_id else payload
        let portfolio_type := pyOrJ (qsGetJ qs "type") (.str "coinbase")
        let payload := payload.dset "type" portfolio_type
        let call := meshBuildRequest "POST" cfg.portfolio_url cfg (some (.obj payload)) none none
        (some call,
          match meshRequest parse outcome with
          | .error e => .error e
          | .ok (status, mesh_body) =>
            if 400 ≤ status then
              .ok (respond status (Json.mkObj
                [("error", .str "Mesh portfolio request failed"), ("meshResponse", mesh_body)]))
            else .ok (respond 200 mesh_body))
    else
      match asDictE "AttributeError" (pyOrJ (jsonBody parse event) (Json.obj .nil)) with
      | .error e => (none, .error e)
      | .ok body =>
        let auth_token := pyOrJ (pyGet body "authToken") (pyGet body "accessToken")
        let account_id := pyOrJ (pyGet body "accountId") (pyGet body "account_id")
        if !(jsonTruthy auth_token) then
          (none, .ok (respond 400 (Json.mkObj [("error", .str "authToken is required")])))
        else
          let payload := JsonFields.cons "authToken" auth_token
            (.cons "includeMarketValue" (.bool true) .nil)
          let payload := if jsonTruthy account_id then payload.dset "accountId" account_id else payload
          let portfolio_type := pyOrJ (pyGet body "type") (.str "coinbase")
          let payload := payload.dset "type" portfolio_type
          let call := meshBuildRequest "POST" cfg.portfolio_url cfg (some (.obj payload)) none none
          (some call,
            match meshRequest parse outcome with
            | .error e => .error e
            | .ok (status, mesh_body) =>
              if 400 ≤ status then
                .ok (respond status (Json.mkObj
                  [("error", .str "Mesh portfolio request failed"), ("meshResponse", mesh_body)]))
              else .ok (respond 200 mesh_body))

/-- Lines 148–333: `handler(event, context)`.  The first component
records the single upstream request the invocation issues, if any; the
second is the returned response, or `Except.error` when the Python code
would raise.  `secret` is the Secrets Manager blob `get_secret()`
returns on this invocation, `parse` the `json.loads` oracle, `outcome`
the transport oracle for the upstream call. -/
def handler (secret : Secret) (parse : Parse) (outcome : TransportOutcome)
    (event : LambdaEvent) : Option UpstreamCall × Except String HttpResponse :=
  let method := event.rcMethod.getD "GET"
  let raw_path := match event.rawPath with
    | some s => if s ≠ "" then s else event.path.getD "/"
    | none => event.path.getD "/"
  let path0 := match event.rcStage with
    | some st =>
      if st ≠ "" ∧ sStartsWith raw_path ("/" ++ st) then sDrop raw_path (sLen st + 1)
      else raw_path
    | none => raw_path
  let path := if path0 = "" then "/" else path0
  if method = "OPTIONS" then (none, .ok (respond 200 (Json.mkObj [("ok", .bool true)])))
  else if path = "/" ∧ method = "GET" then
    (none, .ok (respond 200 (Json.mkObj
      [("ok", .bool true), ("message", .str "Hello from Lambda + HTTP API")])))
  else
    let normalized_path := if rstripSlash path = "" then "/" else rstripSlash path
    if method = "POST" ∧ (normalized_path = "/mesh/link-token" ∨ normalized_path = "/mesh/link-token/connect") then
      linkTokenRoute secret parse outcome event
    else if method = "POST" ∧ normalized_path = "/mesh/link-token/pay" then
      payRoute secret parse outcome event
    else if normalized_path = "/mesh/portfolio" ∧ (method = "GET" ∨ method = "POST") then
      portfolioRoute secret parse outcome event method
    else
      (none, .ok (respond 404 (Json.mkObj
        [("error", .str ("Route " ++ method ++ " " ++ path ++ " not found"))])))

/-! ## Concrete scenario inputs used by the spec's test scenarios -/

/-- A `json.loads` oracle under which no string is valid JSON. -/
def parseNone : Parse := fun _ => none

/-- The secret of the spec's scenarios:
`{"MESH_BASE_URL": "https://api.example.com", "MESH_API_KEY": "k"}`. -/
def secretScenario : Secret := [("MESH_BASE_URL", "https://api.example.com"), ("MESH_API_KEY", "k")]

/-- A plain invocation event: the given method and raw path, no stage,
no query parameters. -/
def mkEvent (method path : String) (body : Option BodyVal) : LambdaEvent :=
  { rcMethod := some method, rcStage := none, rawPath := some path, path := none,
    body := body, queryStringParameters := none }

/-- The resolved configuration for `secretScenario` (checked against
`meshConfig` by the theorems that use it). -/
def cfgScenario : MeshConfig :=
  { base_url := "https://api.example.com", client_secret := "k", client_id := none,
    customer_id := none, default_mfa := "123456", default_user_id := "demo-user-1",
    coinbase_integration_id := none, ethereum_network_id := none, pay_to_address := none,
    link_token_url := "https://api.example.com/api/v1/linktoken",
    transfer_url := "https://api.example.com/api/v1/transfer/create",
    portfolio_url := "https://api.example.com/api/v1/holdings/get",
    raw_secret := [("MESH_BASE_URL", true), ("MESH_API_KEY", true)] }

/-- The scenario secret extended with absolute-URL endpoint overrides. -/
def secretAbsOverrides : Secret :=
  [("MESH_BASE_URL", "https://api.example.com"), ("MESH_API_KEY", "k"),
   ("MESH_LINK_TOKEN_PATH", "https://alt.example.com/lt"),
   ("MESH_TRANSFER_PATH", "http://alt.example.com/tr"),
   ("MESH_PORTFOLIO_PATH", "https://alt.example.com/pf")]

/-- The scenario secret extended with a relative link-token override. -/
def secretRelOverride : Secret :=
  [("MESH_BASE_URL", "https://api.example.com"), ("MESH_API_KEY", "k"),
   ("MESH_LINK_TOKEN_PATH", "lt")]

/-- A secret with a credential but no base URL. -/
def secretMissingBase : Secret := [("MESH_API_KEY", "k")]

/-- The spec scenario's legacy-transfer request: `POST
/mesh/link-token/pay` with body `{"accessToken": "tok123", "amount": 10}`. -/
def eventPayLegacy : LambdaEvent :=
  mkEvent "POST" "/mesh/link-token/pay"
    (some (.json (Json.mkObj [("accessToken", .str "tok123"), ("amount", .num 10)])))

/-- The transfer payload the legacy flow builds for `eventPayLegacy`
under the scenario secret. -/
def transferPayloadLegacy : JsonFields :=
  JsonFields.ofList
    [("accessToken", .str "tok123"), ("amount", .num 10), ("memo", .str "Shoes"),
     ("asset", .str "USDC"), ("network", .str "ethereum"), ("twoFactorCode", .str "123456")]

/-- The same payload with the `accessToken` entry removed, as echoed in
the legacy-flow error response. -/
def publicPayloadLegacy : JsonFields :=
  JsonFields.ofList
    [("amount", .num 10), ("memo", .str "Shoes"), ("asset", .str "USDC"),
     ("network", .str "ethereum"), ("twoFactorCode", .str "123456")]

/-- One dict extends another when every key of the first still maps to
the same (first-match) value in the second.  All builder steps are
set-if-absent, so each builder output extends its input. -/
def FieldsExtends (fs gs : JsonFields) : Prop :=
  ∀ k, fs.containsKey k = true → gs.lookup k = fs.lookup k ∧ gs.containsKey k = true

/-- The fields the link-token builder (and the pay top-level builder)
would default. -/
def linkTokenDefaultKeys : List String :=
  ["userId", "clientId", "customerId", "integrationId", "restrictMultipleAccounts", "products"]

/-- The fields the legacy direct-transfer builder would default. -/
def legacyDefaultKeys : List String :=
  ["memo", "asset", "network", "twoFactorCode", "clientId", "customerId"]

/-- The fields defaulted inside the pay route's `transferOptions`. -/
def transferOptionKeys : List String :=
  ["amountInFiat", "isInclusiveFeeEnabled", "generatePayLink"]

/-- A caller body supplying values the builders would otherwise default. -/
def bodyPreserveSample : JsonFields :=
  JsonFields.ofList
    [("userId", .str "u7"), ("memo", .str "Hi"),
     ("transferOptions", Json.mkObj [("amountInFiat", .num 7)])]

/-! ## Helper lemmas: strings and URL joining -/

theorem stringEqEmptyIff (s : String) : s = "" ↔ s.data = [] :=
  ⟨fun h => by rw [h], fun h => congrArg String.mk h⟩

theorem dropWhileIdem (p : Char → Bool) (l : List Char) :
    (l.dropWhile p).dropWhile p = l.dropWhile p := by
  induction l with
  | nil => rfl
  | cons c t ih =>
    by_cases h : p c = true
    · simp [List.dropWhile_cons, h, ih]
    · simp [List.dropWhile_cons, h]

theorem rstripSlashIdem (s : String) : rstripSlash (rstripSlash s) = rstripSlash s := by
  have h : (((s.data.reverse.dropWhile (fun c => c = '/')).reverse).reverse.dropWhile
        (fun c => c = '/')).reverse
      = (s.data.reverse.dropWhile (fun c => c = '/')).reverse := by
    rw [List.reverse_reverse, dropWhileIdem]
  exact congrArg String.mk h

theorem rstripSlashCfgBase (secret : Secret) : rstripSlash (cfgBase secret) = cfgBase secret :=
  rstripSlashIdem _

theorem dirOfAppendSlash (s : String) : dirOf (s ++ "/") = s ++ "/" := by
  have h : (((s ++ "/").data.reverse.dropWhile (fun c => !(c == '/'))).reverse)
      = (s ++ "/").data := by
    have hd : (s ++ "/").data = s.data ++ ['/'] := rfl
    rw [hd, List.reverse_append]
    simp [List.dropWhile_cons]
  exact congrArg String.mk h

theorem sAppendAssoc (a b c : String) : (a ++ b) ++ c = a ++ (b ++ c) :=
  congrArg String.mk (List.append_assoc a.data b.data c.data)

theorem urljoinSlashRel (b ref : String) (h1 : sStartsWith ref "http://" = false)
    (h2 : sStartsWith ref "https://" = false) (h3 : ¬(ref = "")) :
    urljoinPy (b ++ "/") ref = (b ++ "/") ++ ref := by
  unfold urljoinPy
  rw [h1, h2]
  simp only [Bool.or_self, Bool.false_eq_true, if_false]
  rw [if_neg h3, dirOfAppendSlash]

theorem listIsPrefixOfIff : ∀ (a b : List Char), listIsPrefixOf a b = true ↔ ∃ t, b = a ++ t := by
  intro a
  induction a with
  | nil => intro b; simp [listIsPrefixOf]
  | cons x xs ih =>
    intro b
    cases b with
    | nil =>
      simp only [listIsPrefixOf]
      constructor
      · intro h; cases h
      · rintro ⟨t, ht⟩; cases ht
    | cons y ys =>
      simp only [listIsPrefixOf, Bool.and_eq_true, decide_eq_true_eq, ih]
      constructor
      · rintro ⟨rfl, t, rfl⟩; exact ⟨t, rfl⟩
      · rintro ⟨t, ht⟩
        injection ht with hy hys
        exact ⟨hy.symm, t, hys⟩

theorem sStartsWithNonempty (o p : String) (hp : p.data ≠ []) (h : sStartsWith o p = true) :
    ¬(o = "") := by
  intro ho
  rcases (listIsPrefixOfIff p.data o.data).mp h with ⟨t, ht⟩
  have hod : o.data = [] := (stringEqEmptyIff o).mp ho
  rw [hod] at ht
  cases hpd : p.data with
  | nil => exact hp hpd
  | cons c cs => rw [hpd] at ht; simp at ht

theorem relRefOkNoScheme (p : String) (h : relRefOk p = true) :
    sStartsWith p "http://" = false ∧ sStartsWith p "https://" = false := by
  constructor
  · cases hs : sStartsWith p "http://" with
    | false => rfl
    | true =>
      exfalso
      rcases (listIsPrefixOfIff _ _).mp hs with ⟨t, ht⟩
      unfold relRefOk at h
      rw [ht] at h
      simp at h
  · cases hs : sStartsWith p "https://" with
    | false => rfl
    | true =>
      exfalso
      rcases (listIsPrefixOfIff _ _).mp hs with ⟨t, ht⟩
      unfold relRefOk at h
      rw [ht] at h
      simp at h

theorem optTruthySome (o : String) (ho : ¬(o = "")) : optTruthy (some o) = true := by
  simp [optTruthy, ho]

theorem resolvePathDefault (secret : Secret) (base dp key dfl : String)
    (h : optTruthy (sGet secret key) = false) :
    resolvePath secret base dp key dfl =
      urljoinPy (rstripSlash base ++ "/") (dp ++ lstripSlash dfl) := by
  simp [resolvePath, h]

theorem resolvePathOverrideAbs (secret : Secret) (base dp key dfl o : String)
    (h : sGet secret key = some o)
    (habs : sStartsWith o "http://" = true ∨ sStartsWith o "https://" = true) :
    resolvePath secret base dp key dfl = o := by
  have hne : ¬(o = "") := by
    rcases habs with h1 | h1
    · exact sStartsWithNonempty o "http://" (by decide) h1
    · exact sStartsWithNonempty o "https://" (by decide) h1
  rcases habs with h1 | h1 <;>
    simp [resolvePath, h, optTruthySome o hne, h1]

theorem resolvePathOverrideRel (secret : Secret) (base dp key dfl o : String)
    (h : sGet secret key = some o) (ho : ¬(o = ""))
    (h1 : sStartsWith o "http://" = false) (h2 : sStartsWith o "https://" = false) :
    resolvePath secret base dp key dfl =
      urljoinPy (rstripSlash base ++ "/") (lstripSlash o) := by
  simp [resolvePath, h, optTruthySome o ho, h1, h2]

theorem meshConfigOkInv (secret : Secret) (cfg : MeshConfig)
    (h : meshConfig secret = .ok cfg) :
    cfg = meshConfigOk secret ∧ ¬(cfgBase secret = "") ∧
      optTruthy (cfgClientSecret secret) = true := by
  unfold meshConfig at h
  by_cases h1 : cfgBase secret = ""
  · rw [if_pos h1] at h; cases h
  · rw [if_neg h1] at h
    by_cases h2 : optTruthy (cfgClientSecret secret) = false
    · rw [if_pos h2] at h; cases h
    · rw [if_neg h2] at h
      refine ⟨(Except.ok.inj h).symm, h1, ?_⟩
      cases hx : optTruthy (cfgClientSecret secret)
      · exact absurd hx h2
      · rfl

/-- Join a default path onto the resolved base: the no-override branch
of `resolve_path` concatenates `baseUrl ++ "/" ++ the default prefix ++
default_path`. -/
theorem resolveDefaultConcat (secret : Secret) (key dfl dp : String)
    (h : optTruthy (sGet secret key) = false)
    (hd1 : sStartsWith (dp ++ lstripSlash dfl) "http://" = false)
    (hd2 : sStartsWith (dp ++ lstripSlash dfl) "https://" = false)
    (hd3 : ¬(dp ++ lstripSlash dfl = "")) :
    resolvePath secret (cfgBase secret) dp key dfl =
      cfgBase secret ++ ("/" ++ (dp ++ lstripSlash dfl)) := by
  rw [resolvePathDefault _ _ _ _ _ h, rstripSlashCfgBase,
    urljoinSlashRel _ _ hd1 hd2 hd3, sAppendAssoc]

/-! ## Claim C1 -/

/-- C1: for every resolved configuration with no endpoint override
present (and a base URL inside the modelled `urljoin` fragment), the
version-prefix heuristic governs the default paths: `hasApiVersion`
is exactly the test "path of baseUrl (trailing slashes stripped) ends
with /v1, /v2, /api/v1 or /api/v2, or contains /api/"; when it holds
each default relative path is joined onto baseUrl without the `api/v1/`
prefix, and when it fails the `api/v1/` prefix is prepended. -/
theorem claimDefaultPathsVersionHeuristic
    (secret : Secret) (cfg : MeshConfig)
    (hcfg : meshConfig secret = .ok cfg)
    (hok : baseOk cfg.base_url = true)
    (hlt : optTruthy (sGet secret "MESH_LINK_TOKEN_PATH") = false)
    (htr : optTruthy (sGet secret "MESH_TRANSFER_PATH") = false)
    (hpf : optTruthy (sGet secret "MESH_PORTFOLIO_PATH") = false) :
    hasApiVersion cfg.base_url =
      ((sEndsWith (basePathOf cfg.base_url) "/v1" || sEndsWith (basePathOf cfg.base_url) "/v2" ||
        sEndsWith (basePathOf cfg.base_url) "/api/v1" ||
        sEndsWith (basePathOf cfg.base_url) "/api/v2") ||
       sContainsSub (basePathOf cfg.base_url) "/api/") ∧
    (hasApiVersion cfg.base_url = true →
      cfg.link_token_url = cfg.base_url ++ "/linktoken" ∧
      cfg.transfer_url = cfg.base_url ++ "/transfer/create" ∧
      cfg.portfolio_url = cfg.base_url ++ "/holdings/get") ∧
    (hasApiVersion cfg.base_url = false →
      cfg.link_token_url = cfg.base_url ++ "/api/v1/linktoken" ∧
      cfg.transfer_url = cfg.base_url ++ "/api/v1/transfer/create" ∧
      cfg.portfolio_url = cfg.base_url ++ "/api/v1/holdings/get") := by
  obtain ⟨rfl, -, -⟩ := meshConfigOkInv secret cfg hcfg
  have hb : (meshConfigOk secret).base_url = cfgBase secret := rfl
  rw [hb]
  refine ⟨rfl, ?_, ?_⟩
  · intro hv
    have hdp : (if hasApiVersion (cfgBase secret) then "" else "api/v1/") = "" := by simp [hv]
    refine ⟨?_, ?_, ?_⟩
    · rw [show (meshConfigOk secret).link_token_url =
          resolvePath secret (cfgBase secret)
            (if hasApiVersion (cfgBase secret) then "" else "api/v1/")
            "MESH_LINK_TOKEN_PATH" "linktoken" from rfl, hdp,
        resolveDefaultConcat secret "MESH_LINK_TOKEN_PATH" "linktoken" "" hlt
          (by decide) (by decide) (by decide)]
      rfl
    · rw [show (meshConfigOk secret).transfer_url =
          resolvePath secret (cfgBase secret)
            (if hasApiVersion (cfgBase secret) then "" else "api/v1/")
            "MESH_TRANSFER_PATH" "transfer/create" from rfl, hdp,
        resolveDefaultConcat secret "MESH_TRANSFER_PATH" "transfer/create" "" htr
          (by decide) (by decide) (by decide)]
      rfl
    · rw [show (meshConfigOk secret).portfolio_url =
          resolvePath secret (cfgBase secret)
            (if hasApiVersion (cfgBase secret) then "" else "api/v1/")
            "MESH_PORTFOLIO_PATH" "holdings/get" from rfl, hdp,
        resolveDefaultConcat secret "MESH_PORTFOLIO_PATH" "holdings/get" "" hpf
          (by decide) (by decide) (by decide)]
      rfl
  · intro hv
    have hdp : (if hasApiVersion (cfgBase secret) then "" else "api/v1/") = "api/v1/" := by
      simp [hv]
    refine ⟨?_, ?_, ?_⟩
    · rw [show (meshConfigOk secret).link_token_url =
          resolvePath secret (cfgBase secret)
            (if hasApiVersion (cfgBase secret) then "" else "api/v1/")
            "MESH_LINK_TOKEN_PATH" "linktoken" from rfl, hdp,
        resolveDefaultConcat secret "MESH_LINK_TOKEN_PATH" "linktoken" "api/v1/" hlt
          (by decide) (by decide) (by decide)]
      rfl
    · rw [show (meshConfigOk secret).transfer_url =
          resolvePath secret (cfgBase secret)
            (if hasApiVersion (cfgBase secret) then "" else "api/v1/")
            "MESH_TRANSFER_PATH" "transfer/create" from rfl, hdp,
        resolveDefaultConcat secret "MESH_TRANSFER_PATH" "transfer/create" "api/v1/" htr
          (by decide) (by decide) (by decide)]
      rfl
    · rw [show (meshConfigOk secret).portfolio_url =
          resolvePath secret (cfgBase secret)
            (if hasApiVersion (cfgBase secret) then "" else "api/v1/")
            "MESH_PORTFOLIO_PATH" "holdings/get" from rfl, hdp,
        resolveDefaultConcat secret "MESH_PORTFOLIO_PATH" "holdings/get" "api/v1/" hpf
          (by decide) (by decide) (by decide)]
      rfl

/-- Witness for C1 at the scenario secret: its base URL has no API
version segment, so all three default paths receive the `api/v1/`
prefix. -/
theorem claimDefaultPathsVersionHeuristicWitness :
    meshConfig secretScenario = .ok cfgScenario ∧
    cfgScenario.link_token_url = cfgScenario.base_url ++ "/api/v1/linktoken" ∧
    cfgScenario.transfer_url = cfgScenario.base_url ++ "/api/v1/transfer/create" ∧
    cfgScenario.portfolio_url = cfgScenario.base_url ++ "/api/v1/holdings/get" := by
  refine ⟨rfl, ?_⟩
  have h := claimDefaultPathsVersionHeuristic secretScenario cfgScenario rfl
    (by decide) (by decide) (by decide) (by decide)
  exact h.2.2 (by decide)

/-! ## Claim C7 -/

/-- C7: for every endpoint override that is an absolute URL (starts with
the `http://` or `https://` scheme), the resolved endpoint URL is the
override verbatim, independent of the base URL and of the version-prefix
heuristic. -/
theorem claimAbsoluteOverrideVerbatim
    (secret : Secret) (cfg : MeshConfig) (hcfg : meshConfig secret = .ok cfg) :
    (∀ o, sGet secret "MESH_LINK_TOKEN_PATH" = some o →
      (sStartsWith o "http://" = true ∨ sStartsWith o "https://" = true) →
      cfg.link_token_url = o) ∧
    (∀ o, sGet secret "MESH_TRANSFER_PATH" = some o →
      (sStartsWith o "http://" = true ∨ sStartsWith o "https://" = true) →
      cfg.transfer_url = o) ∧
    (∀ o, sGet secret "MESH_PORTFOLIO_PATH" = some o →
      (sStartsWith o "http://" = true ∨ sStartsWith o "https://" = true) →
      cfg.portfolio_url = o) := by
  obtain ⟨rfl, -, -⟩ := meshConfigOkInv secret cfg hcfg
  refine ⟨?_, ?_, ?_⟩ <;> intro o h habs
  · exact resolvePathOverrideAbs secret (cfgBase secret)
      (if hasApiVersion (cfgBase secret) then "" else "api/v1/") "MESH_LINK_TOKEN_PATH"
      "linktoken" o h habs
  · exact resolvePathOverrideAbs secret (cfgBase secret)
      (if hasApiVersion (cfgBase secret) then "" else "api/v1/") "MESH_TRANSFER_PATH"
      "transfer/create" o h habs
  · exact resolvePathOverrideAbs secret (cfgBase secret)
      (if hasApiVersion (cfgBase secret) then "" else "api/v1/") "MESH_PORTFOLIO_PATH"
      "holdings/get" o h habs

/-- Witness for C7: absolute overrides for all three endpoints resolve
verbatim. -/
theorem claimAbsoluteOverrideVerbatimWitness :
    ∃ cfg, meshConfig secretAbsOverrides = .ok cfg ∧
      cfg.link_token_url = "https://alt.example.com/lt" ∧
      cfg.transfer_url = "http://alt.example.com/tr" ∧
      cfg.portfolio_url = "https://alt.example.com/pf" := by
  have h := claimAbsoluteOverrideVerbatim secretAbsOverrides (meshConfigOk secretAbsOverrides) rfl
  exact ⟨meshConfigOk secretAbsOverrides, rfl,
    h.1 _ rfl (Or.inr (by decide)),
    h.2.1 _ rfl (Or.inl (by decide)),
    h.2.2 _ rfl (Or.inr (by decide))⟩

/-! ## Claim C2 -/

/-- C2 counterexample: with base `https://api.example.com` (whose path
has no API-version segment, third conjunct) and the relative override
`"lt"`, the resolved link-token URL is `https://api.example.com/lt`:
the `api/v1/` default prefix is NOT prepended to the relative override,
contradicting the claim that the version-prefix heuristic applies to
relative override values. -/
theorem claimOverridePrefixCounterexample :
    (meshConfig secretRelOverride).toOption.map MeshConfig.link_token_url =
      some "https://api.example.com/lt" ∧
    ¬((meshConfig secretRelOverride).toOption.map MeshConfig.link_token_url =
      some "https://api.example.com/api/v1/lt") ∧
    hasApiVersion "https://api.example.com" = false :=
  ⟨rfl, by decide, rfl⟩

/-- C2 (amended): a relative (non-absolute-URL) endpoint override is
joined onto the base URL as-is — the version-prefix heuristic is NOT
applied to override values, only to built-in default paths. -/
theorem claimRelativeOverrideNoPrefix
    (secret : Secret) (cfg : MeshConfig) (hcfg : meshConfig secret = .ok cfg)
    (hok : baseOk cfg.base_url = true) :
    (∀ o, sGet secret "MESH_LINK_TOKEN_PATH" = some o → ¬(o = "") →
      sStartsWith o "http://" = false → sStartsWith o "https://" = false →
      relRefOk (lstripSlash o) = true → ¬(lstripSlash o = "") →
      cfg.link_token_url = cfg.base_url ++ ("/" ++ lstripSlash o)) ∧
    (∀ o, sGet secret "MESH_TRANSFER_PATH" = some o → ¬(o = "") →
      sStartsWith o "http://" = false → sStartsWith o "https://" = false →
      relRefOk (lstripSlash o) = true → ¬(lstripSlash o = "") →
      cfg.transfer_url = cfg.base_url ++ ("/" ++ lstripSlash o)) ∧
    (∀ o, sGet secret "MESH_PORTFOLIO_PATH" = some o → ¬(o = "") →
      sStartsWith o "http://" = false → sStartsWith o "https://" = false →
      relRefOk (lstripSlash o) = true → ¬(lstripSlash o = "") →
      cfg.portfolio_url = cfg.base_url ++ ("/" ++ lstripSlash o)) := by
  obtain ⟨rfl, -, -⟩ := meshConfigOkInv secret cfg hcfg
  refine ⟨?_, ?_, ?_⟩ <;> intro o h ho h1 h2 hrel hlo
  · calc (meshConfigOk secret).link_token_url
        = resolvePath secret (cfgBase secret)
            (if hasApiVersion (cfgBase secret) then "" else "api/v1/")
            "MESH_LINK_TOKEN_PATH" "linktoken" := rfl
      _ = urljoinPy (rstripSlash (cfgBase secret) ++ "/") (lstripSlash o) :=
        resolvePathOverrideRel _ _ _ _ _ _ h ho h1 h2
      _ = urljoinPy (cfgBase secret ++ "/") (lstripSlash o) := by rw [rstripSlashCfgBase]
      _ = (cfgBase secret ++ "/") ++ lstripSlash o :=
        urljoinSlashRel _ _ (relRefOkNoScheme _ hrel).1 (relRefOkNoScheme _ hrel).2 hlo
      _ = cfgBase secret ++ ("/" ++ lstripSlash o) := sAppendAssoc _ _ _
  · calc (meshConfigOk secret).transfer_url
        = resolvePath secret (cfgBase secret)
            (if hasApiVersion (cfgBase secret) then "" else "api/v1/")
            "MESH_TRANSFER_PATH" "transfer/create" := rfl
      _ = urljoinPy (rstripSlash (cfgBase secret) ++ "/") (lstripSlash o) :=
        resolvePathOverrideRel _ _ _ _ _ _ h ho h1 h2
      _ = urljoinPy (cfgBase secret ++ "/") (lstripSlash o) := by rw [rstripSlashCfgBase]
      _ = (cfgBase secret ++ "/") ++ lstripSlash o :=
        urljoinSlashRel _ _ (relRefOkNoScheme _ hrel).1 (relRefOkNoScheme _ hrel).2 hlo
      _ = cfgBase secret ++ ("/" ++ lstripSlash o) := sAppendAssoc _ _ _
  · calc (meshConfigOk secret).portfolio_url
        = resolvePath secret (cfgBase secret)
            (if hasApiVersion (cfgBase secret) then "" else "api/v1/")
            "MESH_PORTFOLIO_PATH" "holdings/get" := rfl
      _ = urljoinPy (rstripSlash (cfgBase secret) ++ "/") (lstripSlash o) :=
        resolvePathOverrideRel _ _ _ _ _ _ h ho h1 h2
      _ = urljoinPy (cfgBase secret ++ "/") (lstripSlash o) := by rw [rstripSlashCfgBase]
      _ = (cfgBase secret ++ "/") ++ lstripSlash o :=
        urljoinSlashRel _ _ (relRefOkNoScheme _ hrel).1 (relRefOkNoScheme _ hrel).2 hlo
      _ = cfgBase secret ++ ("/" ++ lstripSlash o) := sAppendAssoc _ _ _

/-- Witness for the amended C2 at the concrete relative override. -/
theorem claimRelativeOverrideNoPrefixWitness :
    ∃ cfg, meshConfig secretRelOverride = .ok cfg ∧
      cfg.link_token_url = cfg.base_url ++ ("/" ++ lstripSlash "lt") := by
  have h := claimRelativeOverrideNoPrefix secretRelOverride (meshConfigOk secretRelOverride) rfl
    (by decide)
  exact ⟨meshConfigOk secretRelOverride, rfl,
    h.1 "lt" rfl (by decide) (by decide) (by decide) (by decide) (by decide)⟩

/-! ## Claim C5 -/

/-- C5 counterexample: on a successful (status 200) exchange whose
non-empty body is not valid JSON, `mesh_request` raises the
`json.JSONDecodeError` from line 133 — the only exception handlers cover
`HTTPError` and `URLError` — so it does not return a `(status, body)`
pair for every transport behaviour. -/
theorem claimMeshRequestNeverRaisesCounterexample :
    meshRequest parseNone (.success 200 "x") = .error "json.JSONDecodeError" ∧
    ∀ p : Nat × Json, ¬(meshRequest parseNone (.success 200 "x") = .ok p) := by
  refine ⟨rfl, fun p h => ?_⟩
  rw [show meshRequest parseNone (.success 200 "x") = .error "json.JSONDecodeError" from rfl] at h
  cases h

/-- C5 (amended): `mesh_request` returns a `(status, body)` pair on
every transport-level failure (synthetic status 599 with an `error`
field describing the failure), on every HTTP-error outcome whose body is
empty, invalid JSON, or a JSON object, and on every successful exchange
whose body is empty or valid JSON.  It raises only when a successful
response carries a non-empty invalid-JSON body (see the
counterexample), or when an HTTP-error body parses to a non-dict JSON
value that defeats the `status`-insertion on lines 140–141. -/
theorem claimMeshRequestReturnsPair :
    (∀ (parse : Parse) (reason : String),
      meshRequest parse (.urlError reason) =
        .ok (599, .obj (.cons "error" (.str reason) .nil))) ∧
    (∀ (parse : Parse) (code : Nat) (raw reason : String),
      (raw = "" ∨ parse raw = none ∨ (∃ fs, parse raw = some (.obj fs))) →
      ∃ body, meshRequest parse (.httpError code raw reason) = .ok (code, body)) ∧
    (∀ (parse : Parse) (code : Nat) (raw : String),
      (raw = "" ∨ (∃ j, parse raw = some j)) →
      ∃ body, meshRequest parse (.success code raw) = .ok (code, body)) := by
  refine ⟨fun parse reason => rfl, ?_, ?_⟩
  · intro parse code raw reason h
    rcases h with rfl | h | ⟨fs, hfs⟩
    · exact ⟨_, rfl⟩
    · by_cases hr : raw = ""
      · subst hr; exact ⟨_, rfl⟩
      · refine ⟨.obj (.cons "error" (.str raw) (.cons "status" (.num code) .nil)), ?_⟩
        simp only [meshRequest]
        rw [if_neg hr, h]
        simp [hr]
    · by_cases hr : raw = ""
      · subst hr; exact ⟨_, rfl⟩
      · by_cases hp : fs.containsKey "status" = true
        · refine ⟨.obj fs, ?_⟩
          simp only [meshRequest]
          rw [if_neg hr, hfs]
          simp [pyInJson, hp]
        · refine ⟨.obj (fs.dset "status" (.num code)), ?_⟩
          simp only [meshRequest]
          rw [if_neg hr, hfs]
          simp [pyInJson, hp]
  · intro parse code raw h
    rcases h with rfl | ⟨j, hj⟩
    · exact ⟨_, rfl⟩
    · by_cases hr : raw = ""
      · subst hr; exact ⟨_, rfl⟩
      · refine ⟨j, ?_⟩
        simp only [meshRequest]
        rw [if_neg hr, hj]

/-- Witness for the amended C5 at concrete outcomes of all three kinds. -/
theorem claimMeshRequestReturnsPairWitness :
    (∃ body, meshRequest parseNone (.httpError 500 "oops" "Internal Server Error") =
      .ok (500, body)) ∧
    (∃ body, meshRequest parseNone (.success 200 "") = .ok (200, body)) ∧
    meshRequest parseNone (.urlError "timed out") =
      .ok (599, .obj (.cons "error" (.str "timed out") .nil)) :=
  ⟨claimMeshRequestReturnsPair.2.1 parseNone 500 "oops" "Internal Server Error"
      (Or.inr (Or.inl rfl)),
    claimMeshRequestReturnsPair.2.2 parseNone 200 "" (Or.inl rfl),
    claimMeshRequestReturnsPair.1 parseNone "timed out"⟩

/-! ## Claim C6 -/

/-- C6: an upstream HTTP error (status >= 400 or any code) whose body is
non-empty and not valid JSON is returned as that status code with body
`{"error": raw text, "status": status code}`. -/
theorem claimHttpErrorNonJsonWrapped (parse : Parse) (code : Nat) (raw reason : String)
    (hraw : ¬(raw = "")) (hparse : parse raw = none) :
    meshRequest parse (.httpError code raw reason) =
      .ok (code, .obj (.cons "error" (.str raw) (.cons "status" (.num code) .nil))) := by
  simp only [meshRequest]
  rw [if_neg hraw, hparse]
  simp [hraw]

/-- Witness for C6 at a concrete plain-text 502 error body. -/
theorem claimHttpErrorNonJsonWrappedWitness :
    meshRequest parseNone (.httpError 502 "Bad Gateway" "Bad Gateway") =
      .ok (502, .obj (.cons "error" (.str "Bad Gateway")
        (.cons "status" (.num 502) .nil))) :=
  claimHttpErrorNonJsonWrapped parseNone 502 "Bad Gateway" "Bad Gateway" (by decide) rfl

/-! ## Claim C8 -/

/-- C8: with the scenario secret, `POST /mesh/link-token` with body `{}`
issues the upstream request `POST
https://api.example.com/api/v1/linktoken` whose payload is exactly
`{"userId": "demo-user-1", "restrictMultipleAccounts": true,
"products": ["transactions", "portfolio", "transfer"]}` — so the
payload contains the default user id, `restrictMultipleAccounts` true
and the default products, and the request URL carries the `api/v1/`
prefix — for every `json.loads` and transport oracle. -/
theorem claimLinkTokenScenario (parse : Parse) (outcome : TransportOutcome) :
    (handler secretScenario parse outcome
        (mkEvent "POST" "/mesh/link-token" (some (.json (Json.obj .nil))))).1 = some
      { method := "POST", url := "https://api.example.com/api/v1/linktoken",
        headers := [("Accept", "application/json"), ("X-Client-Secret", "k"),
                    ("Content-Type", "application/json")],
        payload := some (Json.mkObj
          [("userId", .str "demo-user-1"), ("restrictMultipleAccounts", .bool true),
           ("products", Json.mkArr
             [.str "transactions", .str "portfolio", .str "transfer"])]) } :=
  rfl

/-! ## Claim C9 -/

/-- C9 counterexample: with the secret `{"MESH_API_KEY": "k"}` (base URL
missing), `POST /mesh/link-token/pay` returns a 500 whose body is
exactly `{"error": "Mesh API not configured", "detail": "MESH_BASE_URL
missing in secret"}` — it contains no diagnostic key-presence map of the
raw secret; it never even mentions the present key `MESH_API_KEY`. -/
theorem claimConfigErrorDiagnosticsCounterexample :
    handler secretMissingBase parseNone (.urlError "down")
        (mkEvent "POST" "/mesh/link-token/pay" none) =
      (none, .ok (respond 500 (Json.mkObj
        [("error", .str "Mesh API not configured"),
         ("detail", .str "MESH_BASE_URL missing in secret")]))) ∧
    Json.mentions "MESH_API_KEY" (Json.mkObj
        [("error", .str "Mesh API not configured"),
         ("detail", .str "MESH_BASE_URL missing in secret")]) = false :=
  ⟨rfl, rfl⟩

/-- C9 (amended): when `mesh_config` rejects the secret, each of the
four configuration-requiring routes returns a 500 whose body carries
`error` = "Mesh API not configured" and `detail` = the `MeshConfigError`
message; the link-token and connect routes additionally include
`secretKeys`, the sorted list of secret key NAMES (no truthiness map and
no secret values); the pay and portfolio routes return only `error` and
`detail`, with no key diagnostics at all. -/
theorem claimConfigErrorResponses (secret : Secret) (d : String)
    (parse : Parse) (outcome : TransportOutcome)
    (h : meshConfig secret = .error d) :
    handler secret parse outcome (mkEvent "POST" "/mesh/link-token" none) =
      (none, .ok (respond 500 (Json.mkObj
        [("error", .str "Mesh API not configured"), ("detail", .str d),
         ("secretKeys", secretKeysJson secret)]))) ∧
    handler secret parse outcome (mkEvent "POST" "/mesh/link-token/connect" none) =
      (none, .ok (respond 500 (Json.mkObj
        [("error", .str "Mesh API not configured"), ("detail", .str d),
         ("secretKeys", secretKeysJson secret)]))) ∧
    handler secret parse outcome (mkEvent "POST" "/mesh/link-token/pay" none) =
      (none, .ok (respond 500 (Json.mkObj
        [("error", .str "Mesh API not configured"), ("detail", .str d)]))) ∧
    handler secret parse outcome (mkEvent "GET" "/mesh/portfolio" none) =
      (none, .ok (respond 500 (Json.mkObj
        [("error", .str "Mesh API not configured"), ("detail", .str d)]))) ∧
    handler secret parse outcome (mkEvent "POST" "/mesh/portfolio" none) =
      (none, .ok (respond 500 (Json.mkObj
        [("error", .str "Mesh API not configured"), ("detail", .str d)]))) := by
  refine ⟨?_, ?_, ?_, ?_, ?_⟩
  · show linkTokenRoute secret parse outcome (mkEvent "POST" "/mesh/link-token" none) = _
    simp [linkTokenRoute, h]
  · show linkTokenRoute secret parse outcome (mkEvent "POST" "/mesh/link-token/connect" none) = _
    simp [linkTokenRoute, h]
  · show payRoute secret parse outcome (mkEvent "POST" "/mesh/link-token/pay" none) = _
    simp [payRoute, h]
  · show portfolioRoute secret parse outcome (mkEvent "GET" "/mesh/portfolio" none) "GET" = _
    simp [portfolioRoute, h]
  · show portfolioRoute secret parse outcome (mkEvent "POST" "/mesh/portfolio" none) "POST" = _
    simp [portfolioRoute, h]

/-- Witness for the amended C9: the credential-only secret is rejected
for the missing base URL; responses are as described on all four
routes. -/
theorem claimConfigErrorResponsesWitness :
    handler secretMissingBase parseNone (.urlError "down")
        (mkEvent "POST" "/mesh/link-token" none) =
      (none, .ok (respond 500 (Json.mkObj
        [("error", .str "Mesh API not configured"),
         ("detail", .str "MESH_BASE_URL missing in secret"),
         ("secretKeys", secretKeysJson secretMissingBase)]))) ∧
    handler secretMissingBase parseNone (.urlError "down")
        (mkEvent "GET" "/mesh/portfolio" none) =
      (none, .ok (respond 500 (Json.mkObj
        [("error", .str "Mesh API not configured"),
         ("detail", .str "MESH_BASE_URL missing in secret")]))) := by
  have h := claimConfigErrorResponses secretMissingBase "MESH_BASE_URL missing in secret"
    parseNone (.urlError "down") rfl
  exact ⟨h.1, h.2.2.2.1⟩

/-! ## Claim C10 -/

theorem linkTokenRouteBodyCongr (secret : Secret) (parse : Parse) (outcome : TransportOutcome)
    (e e2 : LambdaEvent) (h : jsonBody parse e = jsonBody parse e2) :
    linkTokenRoute secret parse outcome e = linkTokenRoute secret parse outcome e2 := by
  unfold linkTokenRoute
  rw [h]

theorem payRouteBodyCongr (secret : Secret) (parse : Parse) (outcome : TransportOutcome)
    (e e2 : LambdaEvent) (h : jsonBody parse e = jsonBody parse e2) :
    payRoute secret parse outcome e = payRoute secret parse outcome e2 := by
  unfold payRoute
  rw [h]

theorem portfolioRouteBodyCongr (secret : Secret) (parse : Parse) (outcome : TransportOutcome)
    (e e2 : LambdaEvent) (method : String)
    (hq : e.queryStringParameters = e2.queryStringParameters)
    (h : jsonBody parse e = jsonBody parse e2) :
    portfolioRoute secret parse outcome e method = portfolioRoute secret parse outcome e2 method := by
  unfold portfolioRoute
  rw [h, hq]

/-- C10: a request whose body is a string that fails to parse as JSON is
handled exactly like a request with no body at all: `json_body` yields
the empty dict, no 400-class rejection happens, and the whole handler
result (upstream request issued and response returned) is the same as
for the body-less event — so only the builders' defaults and
config-derived fields are sent upstream. -/
theorem claimInvalidJsonBodyTreatedEmpty (secret : Secret) (parse : Parse)
    (outcome : TransportOutcome) (e : LambdaEvent) (s : String)
    (hb : e.body = some (.str s)) (hp : parse s = none) :
    jsonBody parse e = Json.obj .nil ∧
    handler secret parse outcome e = handler secret parse outcome { e with body := none } := by
  obtain ⟨m, st, rp, p, b, qs⟩ := e
  simp only at hb
  subst hb
  have hjb : jsonBody parse ⟨m, st, rp, p, some (.str s), qs⟩ = Json.obj .nil := by
    unfold jsonBody
    by_cases hs : s = ""
    · subst hs; rfl
    · simp [bodyValFalsy, hs, hp]
  have hjb2 : jsonBody parse ⟨m, st, rp, p, none, qs⟩ = Json.obj .nil := rfl
  refine ⟨hjb, ?_⟩
  simp only [handler]
  rw [linkTokenRouteBodyCongr secret parse outcome ⟨m, st, rp, p, some (.str s), qs⟩
      ⟨m, st, rp, p, none, qs⟩ (hjb.trans hjb2.symm),
    payRouteBodyCongr secret parse outcome ⟨m, st, rp, p, some (.str s), qs⟩
      ⟨m, st, rp, p, none, qs⟩ (hjb.trans hjb2.symm),
    portfolioRouteBodyCongr secret parse outcome ⟨m, st, rp, p, some (.str s), qs⟩
      ⟨m, st, rp, p, none, qs⟩ (m.getD "GET") rfl (hjb.trans hjb2.symm)]

/-- Witness for C10 at a concrete unparseable body on the link-token
route. -/
theorem claimInvalidJsonBodyTreatedEmptyWitness :
    jsonBody parseNone (mkEvent "POST" "/mesh/link-token" (some (.str "not json"))) =
      Json.obj .nil ∧
    handler secretScenario parseNone (.urlError "down")
        (mkEvent "POST" "/mesh/link-token" (some (.str "not json"))) =
      handler secretScenario parseNone (.urlError "down")
        { mkEvent "POST" "/mesh/link-token" (some (.str "not json")) with body := none } :=
  claimInvalidJsonBodyTreatedEmpty secretScenario parseNone (.urlError "down")
    (mkEvent "POST" "/mesh/link-token" (some (.str "not json"))) "not json" rfl rfl

/-! ## Claim C4 -/

/-- C4 counterexample: the handler's responses are not free of
access-token values on every route.  `POST /mesh/link-token` with body
`{"accessToken": "tok123"}` under the scenario secret, when the upstream
call fails (HTTP 500, plain-text body "bad"), returns a 500 whose body
echoes the full outgoing payload — including the caller's accessToken:
the response body mentions the string "tok123". -/
theorem claimNoTokenLeakCounterexample :
    ((handler secretScenario parseNone (.httpError 500 "bad" "Internal Server Error")
        (mkEvent "POST" "/mesh/link-token"
          (some (.json (Json.mkObj [("accessToken", .str "tok123")]))))).2.map
      (fun r => (r.statusCode, Json.mentions "tok123" r.body))) = .ok (500, true) :=
  rfl

/-- C4 (amended): the legacy direct-transfer flow does redact the access
token from its error echo.  For the scenario body `{"accessToken":
"tok123", "amount": 10}` under the scenario secret and every failing
upstream result (status >= 400) whose body does not mention "tok123":
the pay route sends the transfer payload with `memo` "Shoes", `asset`
"USDC", `network` "ethereum" upstream, responds with the upstream
status, echoes the payload with the `accessToken` field removed, and the
response body never contains "tok123".  (The link-token route's error
path, by contrast, echoes caller payloads unredacted — see the
counterexample.) -/
theorem claimLegacyTransferRedactsToken (parse : Parse) (outcome : TransportOutcome)
    (st : Nat) (mb : Json)
    (hmr : meshRequest parse outcome = .ok (st, mb))
    (hst : 400 ≤ st)
    (hmb : Json.mentions "tok123" mb = false) :
    handler secretScenario parse outcome eventPayLegacy =
      (some (meshBuildRequest "POST" cfgScenario.transfer_url cfgScenario
          (some (.obj transferPayloadLegacy)) none none),
        .ok (respond st (Json.mkObj
          [("error", .str "Mesh transfer failed"), ("meshResponse", mb),
           ("payload", .obj publicPayloadLegacy)]))) ∧
    Json.mentions "tok123" (Json.mkObj
      [("error", .str "Mesh transfer failed"), ("meshResponse", mb),
       ("payload", .obj publicPayloadLegacy)]) = false := by
  constructor
  · have hstep : handler secretScenario parse outcome eventPayLegacy =
        (some (meshBuildRequest "POST" cfgScenario.transfer_url cfgScenario
            (some (.obj transferPayloadLegacy)) none none),
          match meshRequest parse outcome with
          | .error e => .error e
          | .ok (status, transfer_body) =>
            if 400 ≤ status then
              .ok (respond status (Json.mkObj
                [("error", .str "Mesh transfer failed"), ("meshResponse", transfer_body),
                 ("payload", .obj publicPayloadLegacy)]))
            else .ok (respond 200 transfer_body)) := rfl
    rw [hstep]
    simp only [hmr]
    rw [if_pos hst]
  · simp only [Json.mentions, JsonList.mentions, JsonFields.mentions, Json.mkObj,
      JsonFields.ofList, publicPayloadLegacy]
    rw [hmb]
    decide

/-- Witness for the amended C4 at a concrete failing upstream outcome:
the error response does not contain "tok123". -/
theorem claimLegacyTransferRedactsTokenWitness :
    ((handler secretScenario parseNone (.httpError 500 "bad" "Internal Server Error")
        eventPayLegacy).2.map (fun r => Json.mentions "tok123" r.body)) = .ok false := by
  have h := claimLegacyTransferRedactsToken parseNone
    (.httpError 500 "bad" "Internal Server Error") 500
    (Json.mkObj [("error", .str "bad"), ("status", .num 500)]) rfl (by decide) rfl
  rw [h.1]
  exact congrArg Except.ok h.2

/-! ## Claim C3: dict lemmas -/

theorem containsKeyAppend : ∀ (fs : JsonFields) (gs : JsonFields) (k : String),
    (fs.append gs).containsKey k = (fs.containsKey k || gs.containsKey k)
  | .nil, _, _ => rfl
  | .cons k0 v0 tl, gs, k => by
    simp [JsonFields.append, JsonFields.containsKey, containsKeyAppend tl gs k, Bool.or_assoc]

theorem lookupAppendLeft : ∀ (fs : JsonFields) (gs : JsonFields) (k : String),
    fs.containsKey k = true → (fs.append gs).lookup k = fs.lookup k
  | .nil, _, _, h => by cases h
  | .cons k0 v0 tl, gs, k, h => by
    by_cases hk : k0 = k
    · simp [JsonFields.append, JsonFields.lookup, hk]
    · have h2 : tl.containsKey k = true := by
        simpa [JsonFields.containsKey, hk] using h
      simp [JsonFields.append, JsonFields.lookup, hk, lookupAppendLeft tl gs k h2]

theorem dsetAbsentEqAppend : ∀ (fs : JsonFields) (k : String) (v : Json),
    fs.containsKey k = false → fs.dset k v = fs.append (.cons k v .nil)
  | .nil, _, _, _ => rfl
  | .cons k0 v0 tl, k, v, h => by
    have hk : ¬(k0 = k) := by
      intro he
      simp [JsonFields.containsKey, he] at h
    have htl : tl.containsKey k = false := by
      simpa [JsonFields.containsKey, hk] using h
    simp [JsonFields.dset, JsonFields.append, hk, dsetAbsentEqAppend tl k v htl]

theorem lookupSetdefaultContains (fs : JsonFields) (k2 : String) (v : Json) (k : String)
    (h : fs.containsKey k = true) :
    (fs.setdefault k2 v).lookup k = fs.lookup k := by
  unfold JsonFields.setdefault
  split
  · rfl
  · exact lookupAppendLeft _ _ _ h

theorem containsKeySetdefault (fs : JsonFields) (k2 : String) (v : Json) (k : String)
    (h : fs.containsKey k = true) :
    (fs.setdefault k2 v).containsKey k = true := by
  unfold JsonFields.setdefault
  split
  · exact h
  · rw [containsKeyAppend, h]; rfl

theorem lookupDsetNe : ∀ (fs : JsonFields) (k2 : String) (v : Json) (k : String),
    ¬(k2 = k) → (fs.dset k2 v).lookup k = fs.lookup k
  | .nil, k2, v, k, h => by simp [JsonFields.dset, JsonFields.lookup, h]
  | .cons k0 v0 tl, k2, v, k, h => by
    by_cases h0 : k0 = k2
    · subst h0
      simp [JsonFields.dset, JsonFields.lookup, h]
    · simp [JsonFields.dset, JsonFields.lookup, h0, lookupDsetNe tl k2 v k h]

theorem containsKeyDsetNe : ∀ (fs : JsonFields) (k2 : String) (v : Json) (k : String),
    ¬(k2 = k) → (fs.dset k2 v).containsKey k = fs.containsKey k
  | .nil, k2, v, k, h => by simp [JsonFields.dset, JsonFields.containsKey, h]
  | .cons k0 v0 tl, k2, v, k, h => by
    by_cases h0 : k0 = k2
    · subst h0
      simp [JsonFields.dset, JsonFields.containsKey]
    · simp [JsonFields.dset, JsonFields.containsKey, h0, containsKeyDsetNe tl k2 v k h]

theorem lookupDsetSelf : ∀ (fs : JsonFields) (k : String) (v : Json),
    (fs.dset k v).lookup k = some v
  | .nil, k, v => by simp [JsonFields.dset, JsonFields.lookup]
  | .cons k0 v0 tl, k, v => by
    by_cases h0 : k0 = k
    · simp [JsonFields.dset, JsonFields.lookup, h0]
    · simp [JsonFields.dset, JsonFields.lookup, h0, lookupDsetSelf tl k v]

theorem containsKeyDsetSelf : ∀ (fs : JsonFields) (k : String) (v : Json),
    (fs.dset k v).containsKey k = true
  | .nil, k, v => by simp [JsonFields.dset, JsonFields.containsKey]
  | .cons k0 v0 tl, k, v => by
    by_cases h0 : k0 = k
    · simp [JsonFields.dset, JsonFields.containsKey, h0]
    · simp [JsonFields.dset, JsonFields.containsKey, h0, containsKeyDsetSelf tl k v]

theorem lookupRemoveKeysNotMem : ∀ (fs : JsonFields) (ks : List String) (k : String),
    ks.contains k = false → (fs.removeKeys ks).lookup k = fs.lookup k
  | .nil, _, _, _ => rfl
  | .cons k0 v0 tl, ks, k, h => by
    have hn : ¬(k ∈ ks) := by simpa using h
    by_cases h0 : k0 ∈ ks
    · have hk0 : ¬(k0 = k) := fun he => hn (he ▸ h0)
      simp [JsonFields.removeKeys, h0, JsonFields.lookup, hk0,
        lookupRemoveKeysNotMem tl ks k h]
    · by_cases hk0 : k0 = k
      · simp [JsonFields.removeKeys, h0, JsonFields.lookup, hk0, hn]
      · simp [JsonFields.removeKeys, h0, JsonFields.lookup, hk0,
          lookupRemoveKeysNotMem tl ks k h]

theorem containsKeyRemoveKeysNotMem : ∀ (fs : JsonFields) (ks : List String) (k : String),
    ks.contains k = false → (fs.removeKeys ks).containsKey k = fs.containsKey k
  | .nil, _, _, _ => rfl
  | .cons k0 v0 tl, ks, k, h => by
    have hn : ¬(k ∈ ks) := by simpa using h
    by_cases h0 : k0 ∈ ks
    · have hk0 : ¬(k0 = k) := fun he => hn (he ▸ h0)
      simp [JsonFields.removeKeys, h0, JsonFields.containsKey, hk0,
        containsKeyRemoveKeysNotMem tl ks k h]
    · simp [JsonFields.removeKeys, h0, JsonFields.containsKey,
        containsKeyRemoveKeysNotMem tl ks k h]

theorem extendsRefl (fs : JsonFields) : FieldsExtends fs fs :=
  fun _ h => ⟨rfl, h⟩

theorem extendsTrans {a b c : JsonFields} (h1 : FieldsExtends a b) (h2 : FieldsExtends b c) :
    FieldsExtends a c := by
  intro k hk
  obtain ⟨hl1, hc1⟩ := h1 k hk
  obtain ⟨hl2, hc2⟩ := h2 k hc1
  exact ⟨hl2.trans hl1, hc2⟩

theorem extendsSetdefault (fs : JsonFields) (k : String) (v : Json) :
    FieldsExtends fs (fs.setdefault k v) :=
  fun _ h => ⟨lookupSetdefaultContains _ _ _ _ h, containsKeySetdefault _ _ _ _ h⟩

theorem extendsDsetAbsent (fs : JsonFields) (k : String) (v : Json)
    (h : fs.containsKey k = false) :
    FieldsExtends fs (fs.dset k v) := by
  rw [dsetAbsentEqAppend _ _ _ h]
  intro k2 h2
  refine ⟨lookupAppendLeft _ _ _ h2, ?_⟩
  rw [containsKeyAppend, h2]
  rfl

theorem extendsIteSetdefault (fs : JsonFields) (k : String) (v : Json) (P : Prop)
    [Decidable P] :
    FieldsExtends fs (if P then fs.setdefault k v else fs) := by
  split
  · exact extendsSetdefault _ _ _
  · exact extendsRefl _

theorem extendsIteDset2 (fs : JsonFields) (k : String) (v : Json) (P : Prop)
    [Decidable P] :
    FieldsExtends fs (if P ∧ !(fs.containsKey k) then fs.dset k v else fs) := by
  split
  case isTrue h => exact extendsDsetAbsent _ _ _ (by simpa using h.2)
  case isFalse => exact extendsRefl _

theorem extendsIteDset3 (fs : JsonFields) (k : String) (v : Json) (P Q : Prop)
    [Decidable P] [Decidable Q] :
    FieldsExtends fs (if P ∧ !(fs.containsKey k) ∧ Q then fs.dset k v else fs) := by
  split
  case isTrue h => exact extendsDsetAbsent _ _ _ (by simpa using h.2.1)
  case isFalse => exact extendsRefl _

/-- Every step of the link-token builder is set-if-absent, so its output
extends the caller body. -/
theorem buildLinkTokenPayloadExtends (cfg : MeshConfig) (body : JsonFields) :
    FieldsExtends body (buildLinkTokenPayload cfg body) := by
  simp only [buildLinkTokenPayload]
  exact extendsTrans (extendsTrans (extendsTrans (extendsTrans (extendsTrans
    (extendsIteSetdefault _ _ _ _)
    (extendsIteDset2 _ _ _ _))
    (extendsIteDset3 _ _ _ _ _))
    (extendsIteDset2 _ _ _ _))
    (extendsSetdefault _ _ _))
    (extendsSetdefault _ _ _)

/-- Every step of the legacy transfer builder is set-if-absent, so its
output extends the caller body. -/
theorem buildLegacyTransferPayloadExtends (cfg : MeshConfig) (body : JsonFields) :
    FieldsExtends body (buildLegacyTransferPayload cfg body) := by
  simp only [buildLegacyTransferPayload]
  exact extendsTrans (extendsTrans (extendsTrans (extendsTrans (extendsTrans
    (extendsSetdefault _ _ _)
    (extendsSetdefault _ _ _))
    (extendsSetdefault _ _ _))
    (extendsSetdefault _ _ _))
    (extendsIteDset2 _ _ _ _))
    (extendsIteDset3 _ _ _ _ _)

/-- The pay route's top-level payload extends the stripped caller body. -/
theorem buildPayTopPayloadExtends (cfg : MeshConfig) (body : JsonFields) :
    FieldsExtends (body.removeKeys payStripKeys) (buildPayTopPayload cfg body) := by
  simp only [buildPayTopPayload]
  exact extendsTrans (extendsTrans (extendsTrans (extendsTrans (extendsTrans
    (extendsIteSetdefault _ _ _ _)
    (extendsIteDset2 _ _ _ _))
    (extendsIteDset3 _ _ _ _ _))
    (extendsIteDset2 _ _ _ _))
    (extendsSetdefault _ _ _))
    (extendsSetdefault _ _ _)

theorem tsAfterToAddressesPreserves (cfg : MeshConfig) (body ts0 : JsonFields) (k : String)
    (hk : ¬("toAddresses" = k)) :
    (tsAfterToAddresses cfg body ts0).lookup k = ts0.lookup k ∧
    (tsAfterToAddresses cfg body ts0).containsKey k = ts0.containsKey k := by
  unfold tsAfterToAddresses
  split
  · exact ⟨lookupDsetNe _ _ _ _ hk, containsKeyDsetNe _ _ _ _ hk⟩
  · exact ⟨rfl, rfl⟩

theorem tsAfterAmountPreserves (body ts1 : JsonFields) (k : String)
    (h : ts1.containsKey k = true) :
    (tsAfterAmount body ts1).lookup k = ts1.lookup k ∧
    (tsAfterAmount body ts1).containsKey k = true := by
  unfold tsAfterAmount
  split
  case isTrue hc =>
    have hne : ¬("amountInFiat" = k) := by
      intro he
      rw [← he] at h
      simp [h] at hc
    exact ⟨lookupDsetNe _ _ _ _ hne, by rw [containsKeyDsetNe _ _ _ _ hne]; exact h⟩
  case isFalse => exact ⟨rfl, h⟩

theorem tsAfterAmountContainsAmount (body ts1 : JsonFields) :
    (tsAfterAmount body ts1).containsKey "amountInFiat" = true := by
  unfold tsAfterAmount
  split
  case isTrue => exact containsKeyDsetSelf _ _ _
  case isFalse hc => simpa using hc

theorem setdefaultPreserves (fs : JsonFields) (k2 : String) (v : Json) (k : String)
    (h : fs.containsKey k = true) :
    (fs.setdefault k2 v).lookup k = fs.lookup k ∧
    (fs.setdefault k2 v).containsKey k = true :=
  ⟨lookupSetdefaultContains _ _ _ _ h, containsKeySetdefault _ _ _ _ h⟩

/-- Keys supplied inside the caller's `transferOptions` survive the
transfer-options build unchanged (first-match lookup), for every key
other than `toAddresses`. -/
theorem buildTransferOptionsPreserves (cfg : MeshConfig) (body ts : JsonFields) (k : String)
    (hk : ¬("toAddresses" = k)) (h : ts.containsKey k = true) :
    (buildTransferOptions cfg body ts).lookup k = ts.lookup k := by
  unfold buildTransferOptions
  have s1 := tsAfterToAddressesPreserves cfg body ts k hk
  have h1 : (tsAfterToAddresses cfg body ts).containsKey k = true := by
    rw [s1.2]; exact h
  have s2 := tsAfterAmountPreserves body _ k h1
  have s3 := setdefaultPreserves _ "isInclusiveFeeEnabled" (.bool false) k s2.2
  have s4 := setdefaultPreserves _ "generatePayLink" (.bool false) k s3.2
  rw [s4.1, s3.1, s2.1, s1.1]

/-- When the caller's `transferOptions` lack `amountInFiat` and the
top-level body supplies a truthy one, that value lands in the final
`transferOptions.amountInFiat`. -/
theorem buildTransferOptionsRelocates (cfg : MeshConfig) (body ts : JsonFields)
    (hc : ts.containsKey "amountInFiat" = false)
    (ht : jsonTruthy (pyGet body "amountInFiat") = true) :
    (buildTransferOptions cfg body ts).lookup "amountInFiat" =
      some (pyGet body "amountInFiat") := by
  unfold buildTransferOptions
  have s1 := tsAfterToAddressesPreserves cfg body ts "amountInFiat" (by decide)
  have h1 : (tsAfterToAddresses cfg body ts).containsKey "amountInFiat" = false := by
    rw [s1.2]; exact hc
  have hamt : payAmount body = pyGet body "amountInFiat" := by
    unfold payAmount
    have h2 : pyOrJ (pyGet body "amountInFiat") (pyGet body "amount") =
        pyGet body "amountInFiat" := by
      unfold pyOrJ
      rw [if_pos ht]
    rw [h2]
    have h3 : ¬(pyGet body "amountInFiat" = Json.null) := by
      intro he
      rw [he] at ht
      cases ht
    rw [if_neg h3]
  have s2 : (tsAfterAmount body (tsAfterToAddresses cfg body ts)).lookup "amountInFiat" =
      some (pyGet body "amountInFiat") := by
    unfold tsAfterAmount
    rw [if_pos (by simp [h1])]
    rw [lookupDsetSelf, hamt]
  have h2 := tsAfterAmountContainsAmount body (tsAfterToAddresses cfg body ts)
  have s3 := setdefaultPreserves _ "isInclusiveFeeEnabled" (.bool false) "amountInFiat" h2
  have s4 := setdefaultPreserves _ "generatePayLink" (.bool false) "amountInFiat" s3.2
  rw [s4.1, s3.1, s2]

/-! ## Claim C3 -/

/-- C3 counterexample: the caller-supplied field `amountInFiat` = 0 is
NOT preserved in the payload sent upstream.  For `POST
/mesh/link-token/pay` with body `{"amountInFiat": 0}` under the scenario
secret, the upstream payload has no top-level `amountInFiat` and its
`transferOptions.amountInFiat` is the default 50, not the caller's 0:
the falsy caller value was overwritten by a derived default. -/
theorem claimCallerFieldsPreservedCounterexample :
    (handler secretScenario parseNone (.urlError "down")
        (mkEvent "POST" "/mesh/link-token/pay"
          (some (.json (Json.mkObj [("amountInFiat", .num 0)]))))).1 =
      some (meshBuildRequest "POST" cfgScenario.link_token_url cfgScenario
        (some (Json.mkObj
          [("userId", .str "demo-user-1"), ("restrictMultipleAccounts", .bool true),
           ("products", Json.mkArr [.str "transfer"]),
           ("transferOptions", Json.mkObj
             [("amountInFiat", .num 50), ("isInclusiveFeeEnabled", .bool false),
              ("generatePayLink", .bool false)])])) none none) ∧
    ¬((JsonFields.ofList
        [("amountInFiat", .num 50), ("isInclusiveFeeEnabled", .bool false),
         ("generatePayLink", .bool false)]).lookup "amountInFiat" = some (.num 0)) :=
  ⟨rfl, by decide⟩

/-- C3 (amended): set-if-absent laws hold for every listed field in the
builder that defaults it — link-token (`userId`, `clientId`,
`customerId`, `integrationId`, `restrictMultipleAccounts`, `products`),
legacy transfer (`memo`, `asset`, `network`, `twoFactorCode`,
`clientId`, `customerId`), pay top-level (the link-token list), and
`transferOptions` (`amountInFiat`, `isInclusiveFeeEnabled`,
`generatePayLink`) when supplied inside the caller's `transferOptions` —
and a truthy top-level `amountInFiat` is relocated into
`transferOptions` unchanged.  (A falsy top-level `amountInFiat` is
replaced by `amount` or the default 50 — the counterexample — which is
the one deviation from the claim as stated.) -/
theorem claimCallerFieldsPreserved (cfg : MeshConfig) (body : JsonFields) :
    (∀ k, k ∈ linkTokenDefaultKeys → body.containsKey k = true →
      (buildLinkTokenPayload cfg body).lookup k = body.lookup k) ∧
    (∀ k, k ∈ legacyDefaultKeys → body.containsKey k = true →
      (buildLegacyTransferPayload cfg body).lookup k = body.lookup k) ∧
    (∀ ts, pyOrJ (pyGet body "transferOptions") (Json.obj .nil) = .obj ts →
      ∃ p ts2, buildPayPayload cfg body = .ok p ∧
        p.lookup "transferOptions" = some (.obj ts2) ∧
        (∀ k, k ∈ linkTokenDefaultKeys → body.containsKey k = true →
          p.lookup k = body.lookup k) ∧
        (∀ k, k ∈ transferOptionKeys → ts.containsKey k = true →
          ts2.lookup k = ts.lookup k) ∧
        (ts.containsKey "amountInFiat" = false →
          jsonTruthy (pyGet body "amountInFiat") = true →
          ts2.lookup "amountInFiat" = some (pyGet body "amountInFiat"))) := by
  refine ⟨?_, ?_, ?_⟩
  · intro k hk hbk
    exact ((buildLinkTokenPayloadExtends cfg body) k hbk).1
  · intro k hk hbk
    exact ((buildLegacyTransferPayloadExtends cfg body) k hbk).1
  · intro ts hts
    refine ⟨(buildPayTopPayload cfg body).dset "transferOptions"
        (.obj (buildTransferOptions cfg body ts)),
      buildTransferOptions cfg body ts, ?_, lookupDsetSelf _ _ _, ?_, ?_, ?_⟩
    · simp only [buildPayPayload, hts]
    · intro k hk hbk
      have hkd : payStripKeys.contains k = false ∧ ¬("transferOptions" = k) := by
        simp only [linkTokenDefaultKeys, List.mem_cons, List.not_mem_nil, or_false] at hk
        rcases hk with rfl | rfl | rfl | rfl | rfl | rfl <;> exact ⟨by decide, by decide⟩
      rw [lookupDsetNe _ _ _ _ hkd.2]
      have h0c : (body.removeKeys payStripKeys).containsKey k = true := by
        rw [containsKeyRemoveKeysNotMem _ _ _ hkd.1]; exact hbk
      rw [((buildPayTopPayloadExtends cfg body) k h0c).1]
      exact lookupRemoveKeysNotMem _ _ _ hkd.1
    · intro k hk hck
      have hkne : ¬("toAddresses" = k) := by
        simp only [transferOptionKeys, List.mem_cons, List.not_mem_nil, or_false] at hk
        rcases hk with rfl | rfl | rfl <;> decide
      exact buildTransferOptionsPreserves cfg body ts k hkne hck
    · intro hc ht
      exact buildTransferOptionsRelocates cfg body ts hc ht

/-- Witness for the amended C3: a body supplying `userId`, `memo` and
`transferOptions.amountInFiat` keeps those values in the respective
payloads. -/
theorem claimCallerFieldsPreservedWitness :
    (buildLinkTokenPayload cfgScenario bodyPreserveSample).lookup "userId" =
      some (.str "u7") ∧
    (buildLegacyTransferPayload cfgScenario bodyPreserveSample).lookup "memo" =
      some (.str "Hi") ∧
    ∃ p ts2, buildPayPayload cfgScenario bodyPreserveSample = .ok p ∧
      p.lookup "transferOptions" = some (.obj ts2) ∧
      ts2.lookup "amountInFiat" = some (.num 7) := by
  have h := claimCallerFieldsPreserved cfgScenario bodyPreserveSample
  refine ⟨(h.1 "userId" (by decide) (by decide)).trans (by decide),
    (h.2.1 "memo" (by decide) (by decide)).trans (by decide), ?_⟩
  obtain ⟨p, ts2, h1, h2, _, h4, _⟩ :=
    h.2.2 (JsonFields.ofList [("amountInFiat", .num 7)]) (by decide)
  exact ⟨p, ts2, h1, h2, (h4 "amountInFiat" (by decide) (by decide)).trans (by decide)⟩

end MeshAws
